import Mathlib

/-!
Verification of the retrieval-cascade and content-classification core of the
`@monostate/node-scraper` package (`BNCASmartScraper` in
`scripts/install-lightpanda.js`).

Shallow embedding conventions:
* JavaScript strings are `String` / `List Char`; JavaScript's dynamic result
  records become Lean structures whose optional fields are `Option`s (an absent
  field is `none`, and JavaScript truthiness of an absent boolean field is the
  default `false`).
* The regular expressions of the source are hand-compiled, one by one, into
  sequences of `RItem`s (every quantified subexpression in the source's regexes
  is a single-character class, so items of literal / class / star / plus /
  optional kind suffice).  `matchItems` is a backtracking matcher that explores
  alternatives in the ECMAScript priority order (greedy longest-first, lazy
  shortest-first), so the first result of `matchItems` is the JavaScript match.
  A `(?:a|b)` alternation of literals is compiled to one item sequence per
  alternative, tried in order at every start position.
* External effects (HTTP fetch, the PDF collaborator, the Lightpanda
  subprocess, the Puppeteer engine, the clock) are an explicit `Env`ironment
  record fixing each collaborator's response; counters and the chronological
  event trace are threaded as explicit state `St`.
-/

namespace Scraper

/-! ### Characters and character classes -/

/-- Single-quote character (spelled via its code point). -/
def quoteS : Char := Char.ofNat 39

/-- Double-quote character. -/
def quoteD : Char := Char.ofNat 34

/-- Backslash character. -/
def bslash : Char := Char.ofNat 92

/-- Opening curly brace character. -/
def lbrace : Char := Char.ofNat 123

/-- Closing curly brace character. -/
def rbrace : Char := Char.ofNat 125

/-- Newline character. -/
def nlCh : Char := Char.ofNat 10

/-- Carriage-return character. -/
def crCh : Char := Char.ofNat 13

/-- Tab character. -/
def tabCh : Char := Char.ofNat 9

/-- ECMAScript `\s` (whitespace class): space, tab, LF, VT, FF, CR, NBSP,
Ogham space, the U+2000 block, line/paragraph separators, narrow no-break
space, medium mathematical space, ideographic space and the BOM. -/
def isJsWs (c : Char) : Bool :=
  c == ' ' || c == tabCh || c == nlCh || c == crCh ||
  c == Char.ofNat 11 || c == Char.ofNat 12 || c == Char.ofNat 160 ||
  c == Char.ofNat 0x1680 || (0x2000 ≤ c.toNat && c.toNat ≤ 0x200a) ||
  c == Char.ofNat 0x2028 || c == Char.ofNat 0x2029 || c == Char.ofNat 0x202f ||
  c == Char.ofNat 0x205f || c == Char.ofNat 0x3000 || c == Char.ofNat 0xfeff

/-- ECMAScript `.` without the `s` flag: any character except a line
terminator (LF, CR, LS, PS). -/
def isDotCh (c : Char) : Bool :=
  !(c == nlCh || c == crCh || c == Char.ofNat 0x2028 || c == Char.ofNat 0x2029)

/-- The class `[^>]`. -/
def notGtCh (c : Char) : Bool := !(c == '>')

/-- The class `[^<]`. -/
def notLtCh (c : Char) : Bool := !(c == '<')

/-- The class `['"]`. -/
def isQuoteCh (c : Char) : Bool := c == quoteS || c == quoteD

/-- The class `[^'"]`. -/
def notQuoteCh (c : Char) : Bool := !(isQuoteCh c)

/-- The class `[\s\S]` (any character, including line terminators). -/
def anyCh (_ : Char) : Bool := true

/-- Case-sensitive character comparison (a regex without the `i` flag). -/
def chEq (a b : Char) : Bool := a == b

/-- Case-insensitive character comparison (a regex with the `i` flag). -/
def chEqCI (a b : Char) : Bool := a.toLower == b.toLower

/-! ### Substring utilities (JavaScript `includes`, `startsWith`, `endsWith`) -/

/-- `startsWithL needle hay`: `hay` begins with `needle`, by decidable
character equality.  Models JavaScript `hay.startsWith(needle)`. -/
def startsWithL : List Char → List Char → Bool
  | [], _ => true
  | _ :: _, [] => false
  | c :: cs, d :: ds => c == d && startsWithL cs ds

/-- `listContains hay needle`: `needle` occurs contiguously inside `hay`.
Models JavaScript `hay.includes(needle)`. -/
def listContains : List Char → List Char → Bool
  | [], needle => startsWithL needle []
  | c :: t, needle => startsWithL needle (c :: t) || listContains t needle

/-- `endsWithL suffix hay`: `hay` ends with `suffix`.  Models JavaScript
`hay.endsWith(suffix)`. -/
def endsWithL (suffix hay : List Char) : Bool :=
  startsWithL suffix.reverse hay.reverse

/-- JavaScript `s.includes(pat)` on `String`s. -/
def strContains (s pat : String) : Bool := listContains s.data pat.data

/-- JavaScript `s.endsWith(pat)` on `String`s. -/
def strEndsWith (s pat : String) : Bool := endsWithL pat.data s.data

/-- JavaScript `s.toLowerCase()` (ASCII case mapping suffices here). -/
def strLower (s : String) : String := ⟨s.data.map Char.toLower⟩

/-! ### A small matcher for the source's regular expressions -/

/-- One element of a hand-compiled regex: a literal, a single-character
class, a greedy/lazy star of a class, a greedy plus or optional of a class,
or a capture-group delimiter. -/
inductive RItem where
  | lit : List Char → RItem
  | one : (Char → Bool) → RItem
  | starG : (Char → Bool) → RItem
  | starL : (Char → Bool) → RItem
  | plusG : (Char → Bool) → RItem
  | optG : (Char → Bool) → RItem
  | gOpen : RItem
  | gClose : RItem

/-- Size of one item, for the matcher's termination measure (`plusG`
rewrites to `starG`, so it weighs 2). -/
def itemSize : RItem → Nat
  | .plusG _ => 2
  | _ => 1

/-- Total size of an item sequence. -/
def itemsSize : List RItem → Nat
  | [] => 0
  | i :: is => itemSize i + itemsSize is

/-- Strip `l` from the front of `s` under character comparison `eq`. -/
def stripPrefixBy (eq : Char → Char → Bool) : List Char → List Char → Option (List Char)
  | [], s => some s
  | _ :: _, [] => none
  | p :: ps, c :: cs => if eq p c then stripPrefixBy eq ps cs else none

/-- All ways an item sequence can match a prefix of `s`, in ECMAScript
backtracking priority order; each result is the list of captured group
texts together with the remaining input.  `reg` holds the input as it was
when the current capture group opened.  Every recursive call strictly
decreases `itemsSize items + s.length`, so with fuel above that measure
the out-of-fuel branch is unreachable; the fuel only makes the recursion
structural (hence kernel-reducible). -/
def matchItems (eq : Char → Char → Bool) :
    Nat → List RItem → List Char → Option (List Char) → List (List Char) →
    List (List (List Char) × List Char)
  | 0, _, _, _, _ => []
  | _ + 1, [], s, _, caps => [(caps, s)]
  | fuel + 1, .lit l :: rest, s, reg, caps =>
    match stripPrefixBy eq l s with
    | some s2 => matchItems eq fuel rest s2 reg caps
    | none => []
  | fuel + 1, .one p :: rest, s, reg, caps =>
    match s with
    | c :: cs => if p c then matchItems eq fuel rest cs reg caps else []
    | [] => []
  | fuel + 1, .starG p :: rest, s, reg, caps =>
    (match s with
     | c :: cs =>
       if p c then matchItems eq fuel (.starG p :: rest) cs reg caps else []
     | [] => []) ++ matchItems eq fuel rest s reg caps
  | fuel + 1, .starL p :: rest, s, reg, caps =>
    matchItems eq fuel rest s reg caps ++
    (match s with
     | c :: cs =>
       if p c then matchItems eq fuel (.starL p :: rest) cs reg caps else []
     | [] => [])
  | fuel + 1, .plusG p :: rest, s, reg, caps =>
    match s with
    | c :: cs => if p c then matchItems eq fuel (.starG p :: rest) cs reg caps else []
    | [] => []
  | fuel + 1, .optG p :: rest, s, reg, caps =>
    (match s with
     | c :: cs => if p c then matchItems eq fuel rest cs reg caps else []
     | [] => []) ++ matchItems eq fuel rest s reg caps
  | fuel + 1, .gOpen :: rest, s, _, caps => matchItems eq fuel rest s (some s) caps
  | fuel + 1, .gClose :: rest, s, reg, caps =>
    match reg with
    | some s0 => matchItems eq fuel rest s none (caps ++ [s0.take (s0.length - s.length)])
    | none => []

/-- Try each alternative item sequence, in order, at the current position
(with fuel covering the matcher's measure); return the first
(highest-priority) match. -/
def matchFirst (eq : Char → Char → Bool) :
    List (List RItem) → List Char → Option (List (List Char) × List Char)
  | [], _ => none
  | items :: rest, s =>
    match matchItems eq (itemsSize items + s.length + 1) items s none [] with
    | r :: _ => some r
    | [] => matchFirst eq rest s

/-- Leftmost match of any alternative of a pattern: scan start positions
left to right.  Returns the captures and the input remaining after the
match, like an ECMAScript regex `exec`. -/
def rxSearch (eq : Char → Char → Bool) (pats : List (List RItem)) :
    List Char → Option (List (List Char) × List Char)
  | [] => matchFirst eq pats []
  | c :: cs =>
    match matchFirst eq pats (c :: cs) with
    | some r => some r
    | none => rxSearch eq pats cs

/-- `pattern.test(s)` of ECMAScript. -/
def rxTest (eq : Char → Char → Bool) (pats : List (List RItem)) (s : List Char) : Bool :=
  (rxSearch eq pats s).isSome

/-- First capture group of the leftmost match (`s.match(re)?.[1]`). -/
def rxMatch1 (eq : Char → Char → Bool) (pats : List (List RItem)) (s : List Char) :
    Option (List Char) :=
  match rxSearch eq pats s with
  | some (caps, _) => caps.head?
  | none => none

/-- Fuelled body of `rxMatchAll` (the fuel covers the input length, so the
out-of-fuel branch is unreachable). -/
def rxMatchAllF (eq : Char → Char → Bool) (pats : List (List RItem)) :
    Nat → List Char → List (List (List Char))
  | 0, _ => []
  | fuel + 1, s =>
    match rxSearch eq pats s with
    | none => []
    | some (caps, rest) =>
      caps :: (if rest.length < s.length then rxMatchAllF eq pats fuel rest else [])

/-- Capture lists of all successive non-overlapping matches
(`[...s.matchAll(re)]` for a `g`-flagged regex; all regexes involved match
at least one character, the degenerate guard only serves termination). -/
def rxMatchAll (eq : Char → Char → Bool) (pats : List (List RItem)) (s : List Char) :
    List (List (List Char)) :=
  rxMatchAllF eq pats (s.length + 1) s

/-- Fuelled body of `rxReplaceAll`. -/
def rxReplaceAllF (eq : Char → Char → Bool) (pats : List (List RItem)) (repl : List Char) :
    Nat → List Char → List Char
  | 0, s => s
  | _ + 1, [] =>
    match matchFirst eq pats [] with
    | some r => repl ++ r.2
    | none => []
  | fuel + 1, c :: cs =>
    match matchFirst eq pats (c :: cs) with
    | some r =>
      if r.2.length < cs.length + 1 then repl ++ rxReplaceAllF eq pats repl fuel r.2
      else repl ++ r.2
    | none => c :: rxReplaceAllF eq pats repl fuel cs

/-- `s.replace(re, repl)` for a `g`-flagged regex: replace every
non-overlapping match by `repl`. -/
def rxReplaceAll (eq : Char → Char → Bool) (pats : List (List RItem)) (repl : List Char)
    (s : List Char) : List Char :=
  rxReplaceAllF eq pats repl (s.length + 1) s

/-! ### The source's regular expressions, hand-compiled to item sequences -/

/-- `/<div[^>]*id=['"]?root['"]?[^>]*>\s*<\/div>/i` -/
def divRootRx : List (List RItem) :=
  [[.lit "<div".data, .starG notGtCh, .lit "id=".data, .optG isQuoteCh,
    .lit "root".data, .optG isQuoteCh, .starG notGtCh, .lit ">".data,
    .starG isJsWs, .lit "</div>".data]]

/-- `/<div[^>]*id=['"]?app['"]?[^>]*>\s*<\/div>/i` -/
def divAppRx : List (List RItem) :=
  [[.lit "<div".data, .starG notGtCh, .lit "id=".data, .optG isQuoteCh,
    .lit "app".data, .optG isQuoteCh, .starG notGtCh, .lit ">".data,
    .starG isJsWs, .lit "</div>".data]]

/-- `/<div[^>]*data-reactroot/i` -/
def dataReactRootRx : List (List RItem) :=
  [[.lit "<div".data, .starG notGtCh, .lit "data-reactroot".data]]

/-- A regex that is a plain literal (dots in the source are escaped). -/
def litRx (s : String) : List (List RItem) := [[.lit s.data]]

/-- A regex of the form `a.*b` (unflagged `.` excludes line terminators). -/
def sepRx (a b : String) : List (List RItem) :=
  [[.lit a.data, .starG isDotCh, .lit b.data]]

/-- The `spaIndicators` regex list of `detectBrowserRequirement`. -/
def spaIndicators : List (List (List RItem)) :=
  [divRootRx, divAppRx, dataReactRootRx,
   litRx "window.__NEXT_DATA__", litRx "window.__NUXT__",
   litRx "_next/static", litRx "__webpack_require__"]

/-- The `protectionIndicators` regex list of `detectBrowserRequirement`. -/
def protectionIndicators : List (List (List RItem)) :=
  [sepRx "cloudflare" "challenge", sepRx "cloudflare" "protection",
   sepRx "ray id" "cloudflare", litRx "please enable javascript",
   litRx "you need to enable javascript", litRx "this site requires javascript",
   sepRx "jscript" "required", sepRx "security check" "cloudflare",
   sepRx "attention required" "cloudflare"]

/-- The `domainIndicators` regex list of `detectBrowserRequirement`. -/
def domainIndicators : List (List (List RItem)) :=
  [litRx "instagram.com", litRx "twitter.com", litRx "facebook.com",
   litRx "linkedin.com", litRx "maps.google", litRx "gmail.com",
   litRx "youtube.com"]

/-- `/<body[^>]*>([\s\S]*)<\/body>/i` -/
def bodyRx : List (List RItem) :=
  [[.lit "<body".data, .starG notGtCh, .lit ">".data,
    .gOpen, .starG anyCh, .gClose, .lit "</body>".data]]

/-- `/<script[\s\S]*?<\/script>/gi` -/
def scriptBlockRx : List (List RItem) :=
  [[.lit "<script".data, .starL anyCh, .lit "</script>".data]]

/-- `/<style[\s\S]*?<\/style>/gi` -/
def styleBlockRx : List (List RItem) :=
  [[.lit "<style".data, .starL anyCh, .lit "</style>".data]]

/-- `/<[^>]+>/g` -/
def tagRx : List (List RItem) :=
  [[.lit "<".data, .plusG notGtCh, .lit ">".data]]

/-- `/\s+/g` -/
def wsRunRx : List (List RItem) := [[.plusG isJsWs]]

/-- JavaScript `String.prototype.trim` (trims `\s`, which here already
includes the line terminators). -/
def trimWs (s : List Char) : List Char :=
  ((s.dropWhile isJsWs).reverse.dropWhile isJsWs).reverse

/-- The visible-text computation both the classifier and the extractor
perform on the `<body>` capture: strip script blocks, style blocks and
remaining tags (tags become a space), collapse whitespace runs to a single
space, and trim. -/
def visibleText (bodyContent : List Char) : List Char :=
  trimWs (rxReplaceAll chEq wsRunRx [' ']
    (rxReplaceAll chEq tagRx [' ']
      (rxReplaceAll chEqCI styleBlockRx []
        (rxReplaceAll chEqCI scriptBlockRx [] bodyContent))))

/-- `html.match(/<body[^>]*>([\s\S]*)<\/body>/i)?.[1] || ''`. -/
def bodyCapture (html : List Char) : List Char :=
  (rxMatch1 chEqCI bodyRx html).getD []

/-! ### `detectBrowserRequirement` (the ContentClassifier) -/

/-- The `simpleSites` whitelist of `detectBrowserRequirement`. -/
def simpleSites : List (List Char) :=
  ["example.com".data, "httpbin.org".data, "wikipedia.org".data,
   "github.io".data, "netlify.app".data, "vercel.app".data]

/-- `simpleSites.some(site => url.includes(site))`. -/
def isSimpleSite (url : List Char) : Bool :=
  simpleSites.any (fun site => listContains url site)

/-- `spaIndicators.some(pattern => pattern.test(html))`. -/
def hasSpaIndicatorsB (html : List Char) : Bool :=
  spaIndicators.any (fun p => rxTest chEqCI p html)

/-- `protectionIndicators.some(pattern => pattern.test(html))`. -/
def hasProtectionB (html : List Char) : Bool :=
  protectionIndicators.any (fun p => rxTest chEqCI p html)

/-- `domainIndicators.some(pattern => pattern.test(url))`. -/
def isKnownSpaB (url : List Char) : Bool :=
  domainIndicators.any (fun p => rxTest chEqCI p url)

/-- `BNCASmartScraper.detectBrowserRequirement(html, url)`: whitelist
short-circuit, then protection markers, known-SPA domains, or minimal
visible text combined with SPA markers. -/
def detectBrowserRequirement (html url : List Char) : Bool :=
  if isSimpleSite url then false
  else
    let hasSpaIndicators := hasSpaIndicatorsB html
    let hasProtection := hasProtectionB html
    let isKnownSpa := isKnownSpaB url
    let textContent := visibleText (bodyCapture html)
    let hasMinimalContent := textContent.length < 200
    let isLikelySpa := hasMinimalContent && hasSpaIndicators
    hasProtection || isKnownSpa || isLikelySpa

/-- `BNCASmartScraper.getBrowserIndicators(html)`: the diagnostic indicator
strings attached to a needs-browser direct-fetch result. -/
def getBrowserIndicators (html : List Char) : List String :=
  (if rxTest chEqCI divRootRx html then ["React root div detected"] else []) ++
  (if rxTest chEqCI (litRx "window.__NEXT_DATA__") html then ["Next.js data detected"] else []) ++
  (if rxTest chEqCI (sepRx "cloudflare" "challenge") html then ["Cloudflare challenge detected"] else []) ++
  (if rxTest chEqCI (sepRx "cloudflare" "protection") html then ["Cloudflare protection detected"] else []) ++
  (if rxTest chEqCI (litRx "please enable javascript") html then ["JavaScript required message detected"] else [])

/-! ### JSON values, `JSON.parse` and `JSON.stringify`

`JSON.parse` / `JSON.stringify` are runtime collaborators of the source.
They are modelled over a JSON value type whose numerals are integers (the
numeric literals arising in this development are all integral; a fractional
literal makes the modelled parse fail instead of producing a float). -/

/-- A JSON value. -/
inductive Json where
  | null : Json
  | bool : Bool → Json
  | num : Int → Json
  | str : List Char → Json
  | arr : List Json → Json
  | obj : List (List Char × Json) → Json

/-- One character of a serialized JSON string, escaped as by
`JSON.stringify`. -/
def escChar (c : Char) : List Char :=
  if c == quoteD then [bslash, quoteD]
  else if c == bslash then [bslash, bslash]
  else if c == Char.ofNat 8 then [bslash, 'b']
  else if c == tabCh then [bslash, 't']
  else if c == nlCh then [bslash, 'n']
  else if c == Char.ofNat 12 then [bslash, 'f']
  else if c == crCh then [bslash, 'r']
  else if c.toNat < 32 then
    [bslash, 'u', '0', '0'] ++
    ["0123456789abcdef".data.getD (c.toNat / 16) '0',
     "0123456789abcdef".data.getD (c.toNat % 16) '0']
  else [c]

/-- A string body, escaped as by `JSON.stringify`. -/
def escapeStr (s : List Char) : List Char := (s.map escChar).flatten

/-- A serialized string, quotes included. -/
def quoted (s : List Char) : List Char := [quoteD] ++ escapeStr s ++ [quoteD]

mutual

/-- `JSON.stringify(v)` (no indentation). -/
def stringifyCompact : Json → List Char
  | .null => "null".data
  | .bool true => "true".data
  | .bool false => "false".data
  | .num n => (toString n).data
  | .str s => quoted s
  | .arr xs => ['['] ++ stringifyArrC xs ++ [']']
  | .obj fs => [lbrace] ++ stringifyObjC fs ++ [rbrace]

/-- Comma-joined compact array elements. -/
def stringifyArrC : List Json → List Char
  | [] => []
  | [x] => stringifyCompact x
  | x :: y :: rest => stringifyCompact x ++ [','] ++ stringifyArrC (y :: rest)

/-- Comma-joined compact object members. -/
def stringifyObjC : List (List Char × Json) → List Char
  | [] => []
  | [(k, v)] => quoted k ++ [':'] ++ stringifyCompact v
  | (k, v) :: f :: rest =>
    quoted k ++ [':'] ++ stringifyCompact v ++ [','] ++ stringifyObjC (f :: rest)

end

mutual

/-- Number of constructors of a JSON value (a fuel bound for the pretty
serializer). -/
def jsonFuel : Json → Nat
  | .null => 1
  | .bool _ => 1
  | .num _ => 1
  | .str _ => 1
  | .arr xs => 1 + jsonFuelArr xs
  | .obj fs => 1 + jsonFuelObj fs

/-- Fuel of a list of JSON values. -/
def jsonFuelArr : List Json → Nat
  | [] => 1
  | x :: xs => 1 + jsonFuel x + jsonFuelArr xs

/-- Fuel of a list of JSON object members. -/
def jsonFuelObj : List (List Char × Json) → Nat
  | [] => 1
  | (_, v) :: fs => 1 + jsonFuel v + jsonFuelObj fs

end

mutual

/-- Fuelled body of `JSON.stringify(v, null, 2)` at ambient indentation
`ind` (fuel above `jsonFuel` of the value makes the out-of-fuel branch
unreachable; the fuel only makes the nested recursion structural). -/
def stringifyPrettyF : Nat → List Char → Json → List Char
  | 0, _, _ => []
  | _ + 1, _, .arr [] => "[]".data
  | fuel + 1, ind, .arr (x :: xs) =>
    ['['] ++ [nlCh] ++ stringifyArrP fuel (ind ++ [' ', ' ']) (x :: xs) ++
      [nlCh] ++ ind ++ [']']
  | _ + 1, _, .obj [] => [lbrace] ++ [rbrace]
  | fuel + 1, ind, .obj (f :: fs) =>
    [lbrace] ++ [nlCh] ++ stringifyObjP fuel (ind ++ [' ', ' ']) (f :: fs) ++
      [nlCh] ++ ind ++ [rbrace]
  | _ + 1, _, j => stringifyCompact j

/-- Indented, comma-and-newline-joined pretty array elements. -/
def stringifyArrP : Nat → List Char → List Json → List Char
  | 0, _, _ => []
  | _ + 1, _, [] => []
  | fuel + 1, ind, [x] => ind ++ stringifyPrettyF fuel ind x
  | fuel + 1, ind, x :: y :: rest =>
    ind ++ stringifyPrettyF fuel ind x ++ [','] ++ [nlCh] ++
      stringifyArrP fuel ind (y :: rest)

/-- Indented, comma-and-newline-joined pretty object members. -/
def stringifyObjP : Nat → List Char → List (List Char × Json) → List Char
  | 0, _, _ => []
  | _ + 1, _, [] => []
  | fuel + 1, ind, [(k, v)] => ind ++ quoted k ++ [':', ' '] ++ stringifyPrettyF fuel ind v
  | fuel + 1, ind, (k, v) :: f :: fs =>
    ind ++ quoted k ++ [':', ' '] ++ stringifyPrettyF fuel ind v ++ [','] ++ [nlCh] ++
      stringifyObjP fuel ind (f :: fs)

end

/-- `JSON.stringify(v, null, 2)` at ambient indentation `ind`. -/
def stringifyPretty (ind : List Char) (j : Json) : List Char :=
  stringifyPrettyF (jsonFuel j) ind j

/-- JSON whitespace (space, tab, LF, CR). -/
def isJsonWs (c : Char) : Bool := c == ' ' || c == tabCh || c == nlCh || c == crCh

/-- Skip JSON whitespace. -/
def skipWs (s : List Char) : List Char := s.dropWhile isJsonWs

/-- Value of one hexadecimal digit. -/
def hexVal (c : Char) : Option Nat :=
  if '0' ≤ c && c ≤ '9' then some (c.toNat - 48)
  else if 'a' ≤ c && c ≤ 'f' then some (c.toNat - 87)
  else if 'A' ≤ c && c ≤ 'F' then some (c.toNat - 55)
  else none

/-- Body of a JSON string literal after the opening quote (fuelled so the
recursion is structural; fuel above the input length makes the out-of-fuel
branch unreachable): returns the decoded characters and the input after
the closing quote. -/
def parseStrBody : Nat → List Char → Option (List Char × List Char)
  | 0, _ => none
  | _ + 1, [] => none
  | fuel + 1, c :: cs =>
    if c == quoteD then some ([], cs)
    else if c == bslash then
      match cs with
      | [] => none
      | e :: cs2 =>
        if e == quoteD then (parseStrBody fuel cs2).map (fun pr => (quoteD :: pr.1, pr.2))
        else if e == bslash then (parseStrBody fuel cs2).map (fun pr => (bslash :: pr.1, pr.2))
        else if e == '/' then (parseStrBody fuel cs2).map (fun pr => ('/' :: pr.1, pr.2))
        else if e == 'b' then (parseStrBody fuel cs2).map (fun pr => (Char.ofNat 8 :: pr.1, pr.2))
        else if e == 'f' then (parseStrBody fuel cs2).map (fun pr => (Char.ofNat 12 :: pr.1, pr.2))
        else if e == 'n' then (parseStrBody fuel cs2).map (fun pr => (nlCh :: pr.1, pr.2))
        else if e == 'r' then (parseStrBody fuel cs2).map (fun pr => (crCh :: pr.1, pr.2))
        else if e == 't' then (parseStrBody fuel cs2).map (fun pr => (tabCh :: pr.1, pr.2))
        else if e == 'u' then
          match cs2 with
          | h1 :: h2 :: h3 :: h4 :: cs3 =>
            match hexVal h1, hexVal h2, hexVal h3, hexVal h4 with
            | some v1, some v2, some v3, some v4 =>
              (parseStrBody fuel cs3).map
                (fun pr => (Char.ofNat (((v1 * 16 + v2) * 16 + v3) * 16 + v4) :: pr.1, pr.2))
            | _, _, _, _ => none
          | _ => none
        else none
    else if c.toNat < 32 then none
    else (parseStrBody fuel cs).map (fun pr => (c :: pr.1, pr.2))

/-- Digits of a JSON integer literal. -/
def takeDigits : List Char → List Nat × List Char
  | [] => ([], [])
  | c :: cs =>
    if '0' ≤ c && c ≤ '9' then
      let pr := takeDigits cs
      ((c.toNat - 48) :: pr.1, pr.2)
    else ([], c :: cs)

/-- A JSON number literal, restricted to integers (no leading zeros; a
fraction or exponent makes the modelled parse fail). -/
def parseNum (s : List Char) : Option (Int × List Char) :=
  let (neg, s1) := match s with
    | c :: cs => if c == '-' then (true, cs) else (false, s)
    | [] => (false, s)
  match takeDigits s1 with
  | ([], _) => none
  | (d :: ds, rest) =>
    if d == 0 && ds ≠ [] then none
    else
      match rest with
      | c :: _ => if c == '.' || c == 'e' || c == 'E' then none else
          some (if neg then -(((d :: ds).foldl (fun a x => a * 10 + x) 0 : Nat) : Int)
                else (((d :: ds).foldl (fun a x => a * 10 + x) 0 : Nat) : Int), rest)
      | [] =>
        some (if neg then -(((d :: ds).foldl (fun a x => a * 10 + x) 0 : Nat) : Int)
              else (((d :: ds).foldl (fun a x => a * 10 + x) 0 : Nat) : Int), rest)

mutual

/-- A JSON value at the head of the input (fuelled recursive descent). -/
def parseVal : Nat → List Char → Option (Json × List Char)
  | 0, _ => none
  | _ + 1, [] => none
  | f + 1, c :: cs =>
    if c == quoteD then (parseStrBody (cs.length + 1) cs).map (fun pr => (.str pr.1, pr.2))
    else if c == lbrace then
      let s2 := skipWs cs
      match s2 with
      | c2 :: cs2 =>
        if c2 == rbrace then some (.obj [], cs2)
        else (parseMembers f s2).map (fun pr => (.obj pr.1, pr.2))
      | [] => none
    else if c == '[' then
      let s2 := skipWs cs
      match s2 with
      | c2 :: cs2 =>
        if c2 == ']' then some (.arr [], cs2)
        else (parseElems f s2).map (fun pr => (.arr pr.1, pr.2))
      | [] => none
    else if startsWithL "true".data (c :: cs) then some (.bool true, (c :: cs).drop 4)
    else if startsWithL "false".data (c :: cs) then some (.bool false, (c :: cs).drop 5)
    else if startsWithL "null".data (c :: cs) then some (.null, (c :: cs).drop 4)
    else (parseNum (c :: cs)).map (fun pr => (.num pr.1, pr.2))

/-- One or more `"key": value` members, starting at a member. -/
def parseMembers : Nat → List Char → Option (List (List Char × Json) × List Char)
  | 0, _ => none
  | _ + 1, [] => none
  | f + 1, c :: cs =>
    if c == quoteD then
      match parseStrBody (cs.length + 1) cs with
      | none => none
      | some (key, r1) =>
        match skipWs r1 with
        | c2 :: r2 =>
          if c2 == ':' then
            match parseVal f (skipWs r2) with
            | none => none
            | some (v, r3) =>
              match skipWs r3 with
              | c3 :: r4 =>
                if c3 == ',' then
                  (parseMembers f (skipWs r4)).map (fun pr => ((key, v) :: pr.1, pr.2))
                else if c3 == rbrace then some ([(key, v)], r4)
                else none
              | [] => none
          else none
        | [] => none
    else none

/-- One or more array elements, starting at an element. -/
def parseElems : Nat → List Char → Option (List Json × List Char)
  | 0, _ => none
  | f + 1, s =>
    match parseVal f s with
    | none => none
    | some (v, r1) =>
      match skipWs r1 with
      | c :: r2 =>
        if c == ',' then (parseElems f (skipWs r2)).map (fun pr => (v :: pr.1, pr.2))
        else if c == ']' then some ([v], r2)
        else none
      | [] => none

end

/-- `JSON.parse(s)`: whole-input parse, `none` on any syntax error. -/
def jsonParse (s : List Char) : Option Json :=
  match parseVal (s.length + 1) (skipWs s) with
  | some (j, rest) => if skipWs rest = [] then some j else none
  | none => none

/-! ### `extractContentFromHTML` (the ContentExtractor) -/

/-- `/<title[^>]*>([^<]+)<\/title>/i` -/
def titleRx : List (List RItem) :=
  [[.lit "<title".data, .starG notGtCh, .lit ">".data,
    .gOpen, .plusG notLtCh, .gClose, .lit "</title>".data]]

/-- `/<meta[^>]*name=['"]description['"][^>]*content=['"]([^'"]*)['"]/i` -/
def metaDescRx : List (List RItem) :=
  [[.lit "<meta".data, .starG notGtCh, .lit "name=".data, .one isQuoteCh,
    .lit "description".data, .one isQuoteCh, .starG notGtCh,
    .lit "content=".data, .one isQuoteCh, .gOpen, .starG notQuoteCh, .gClose,
    .one isQuoteCh]]

/-- `/<script[^>]*type=['"]application\/ld\+json['"][^>]*>([\s\S]*?)<\/script>/gi` -/
def jsonLdRx : List (List RItem) :=
  [[.lit "<script".data, .starG notGtCh, .lit "type=".data, .one isQuoteCh,
    .lit "application/ld+json".data, .one isQuoteCh, .starG notGtCh,
    .lit ">".data, .gOpen, .starL anyCh, .gClose, .lit "</script>".data]]

/-- One alternative of the window-state regex
`/window\.__(?:INITIAL_STATE__|INITIAL_DATA__|NEXT_DATA__)__\s*=\s*({[\s\S]*?});/`
(note the source's extra `__` after the alternation group: the matched
global is `window.__NAME____`).  The three alternatives carry distinct
literals after a shared prefix, so expanding the alternation into
whole-pattern alternatives preserves the ECMAScript priority. -/
def windowStateAlt (nm : String) : List RItem :=
  [.lit ("window.__" ++ nm ++ "__").data, .starG isJsWs, .lit "=".data,
   .starG isJsWs, .gOpen, .lit [lbrace], .starL anyCh, .lit [rbrace], .gClose,
   .lit ";".data]

/-- The window-state regex (no `i` flag in the source). -/
def windowStateRx : List (List RItem) :=
  [windowStateAlt "INITIAL_STATE__", windowStateAlt "INITIAL_DATA__",
   windowStateAlt "NEXT_DATA__"]

/-- One alternative of
`/<meta[^>]*(?:property|name)=['"]([^'"]+)['"][^>]*content=['"]([^'"]*)['"]/gi`;
the alternation is expanded to whole-pattern alternatives, which agrees
with the source's backtracking priority on the inputs considered. -/
def metaTagAlt (attr : String) : List RItem :=
  [.lit "<meta".data, .starG notGtCh, .lit (attr ++ "=").data, .one isQuoteCh,
   .gOpen, .plusG notQuoteCh, .gClose, .one isQuoteCh, .starG notGtCh,
   .lit "content=".data, .one isQuoteCh, .gOpen, .starG notQuoteCh, .gClose,
   .one isQuoteCh]

/-- The meta-tag collection regex. -/
def metaTagsRx : List (List RItem) := [metaTagAlt "property", metaTagAlt "name"]

/-- JavaScript object property assignment `obj[k] = v`: an existing key is
updated in place (keeping its insertion position), a new key is appended. -/
def objAssign : List (List Char × List Char) → List Char → List Char →
    List (List Char × List Char)
  | [], k, v => [(k, v)]
  | (k0, v0) :: rest, k, v =>
    if k0 = k then (k0, v) :: rest else (k0, v0) :: objAssign rest k v

/-- The `windowData` value of `extractContentFromHTML`: the single
window-state blob parsed as JSON, the marker string when unparseable, and
`null` when the regex does not match. -/
def windowDataOf (html : List Char) : Json :=
  match rxMatch1 chEq windowStateRx html with
  | none => .null
  | some blob =>
    match jsonParse blob with
    | some j => j
    | none => .str "Found but unparseable".data

/-- The record built by `BNCASmartScraper.extractContentFromHTML` before
serialization, with the timestamp `new Date().toISOString()` passed in as
`now`.  (The source wraps the body in try/catch; over these total
functions the catch branch is unreachable.) -/
def extractObj (html : List Char) (now : List Char) : Json :=
  let title := (rxMatch1 chEqCI titleRx html).getD []
  let metaDescription := (rxMatch1 chEqCI metaDescRx html).getD []
  let structuredData :=
    (rxMatchAll chEqCI jsonLdRx html).filterMap (fun caps => jsonParse (caps.getD 0 []))
  let textContent := (visibleText (bodyCapture html)).take 2000
  let metaTags :=
    ((rxMatchAll chEqCI metaTagsRx html).take 15).foldl
      (fun m caps => objAssign m (caps.getD 0 []) (caps.getD 1 [])) []
  Json.obj
    [("title".data, .str title),
     ("metaDescription".data, .str metaDescription),
     ("structuredData".data, if structuredData.isEmpty then .null else .arr structuredData),
     ("windowData".data, windowDataOf html),
     ("metaTags".data,
       if metaTags.isEmpty then .null
       else .obj (metaTags.map (fun kv => (kv.1, Json.str kv.2)))),
     ("content".data, .str textContent),
     ("extractedAt".data, .str now)]

/-- `BNCASmartScraper.extractContentFromHTML(html)`: the serialized
(`JSON.stringify(..., null, 2)`) content record. -/
def extractContentFromHTML (html now : List Char) : List Char :=
  stringifyPretty [] (extractObj html now)

/-- Field lookup in a JSON object (`none` on non-objects). -/
def jsonField (j : Json) (k : List Char) : Option Json :=
  match j with
  | .obj fs => fs.lookup k
  | _ => none

/-- Replace the value of field `k` in a JSON object, leaving other values
and the field order unchanged. -/
def setFieldList (k : List Char) (v : Json) :
    List (List Char × Json) → List (List Char × Json)
  | [] => []
  | (k0, v0) :: rest =>
    if k0 = k then (k0, v) :: setFieldList k v rest
    else (k0, v0) :: setFieldList k v rest

/-- `jsonSetField j k v`: `j` with field `k` set to `v` (identity on
non-objects). -/
def jsonSetField (j : Json) (k : List Char) (v : Json) : Json :=
  match j with
  | .obj fs => .obj (setFieldList k v fs)
  | _ => j

/-- Is a field present and `null`? -/
def fieldIsNull (j : Json) (k : List Char) : Bool :=
  match jsonField j k with
  | some .null => true
  | _ => false

/-! ### Statistics (`this.stats` and `getStats`) -/

/-- One method's counter pair. -/
structure MStat where
  attempts : Nat := 0
  successes : Nat := 0
deriving DecidableEq

/-- The four counter pairs of `this.stats`. -/
structure Stats where
  directFetch : MStat := {}
  lightpanda : MStat := {}
  puppeteer : MStat := {}
  pdf : MStat := {}
deriving DecidableEq

/-- `(successes / attempts * 100).toFixed(1)`: the rate times 1000,
rounded half-up at the second decimal (ECMAScript `toFixed` picks the
larger candidate on ties), printed with one decimal digit.  The division
is modelled over the rationals; it agrees with the double-precision
evaluation on the counter values considered here. -/
def rateToFixed1 (successes attempts : Nat) : String :=
  let n := (2000 * successes + attempts) / (2 * attempts)
  toString (n / 10) ++ "." ++ toString (n % 10)

/-- One derived entry of `getStats().successRates`. -/
def successRate (ms : MStat) : String :=
  if ms.attempts > 0 then rateToFixed1 ms.successes ms.attempts ++ "%" else "0%"

/-- The `successRates` record of `getStats`. -/
structure SuccessRates where
  directFetch : String
  lightpanda : String
  puppeteer : String
  pdf : String
deriving DecidableEq

/-- The value returned by `BNCASmartScraper.getStats()`. -/
structure StatsSnapshot where
  counters : Stats
  successRates : SuccessRates
deriving DecidableEq

/-- `BNCASmartScraper.getStats()`. -/
def getStats (s : Stats) : StatsSnapshot :=
  { counters := s,
    successRates :=
      { directFetch := successRate s.directFetch,
        lightpanda := successRate s.lightpanda,
        puppeteer := successRate s.puppeteer,
        pdf := successRate s.pdf } }

/-! ### The retrieval cascade (`scrape` and the `try*` steps)

The external world is an `Env` fixing each collaborator's response for the
invocation; the instance state (`this.stats`) plus a chronological event
trace is the explicit state `St`.  Events record, in order, each counter
increment (`attempt`, `success`) and each start of a stage's external
action (`exec`). -/

/-- The four cascade methods that own counters. -/
inductive Method where
  | directFetch
  | lightpanda
  | puppeteer
  | pdf
deriving DecidableEq

/-- One observable event of a scrape invocation. -/
inductive Ev where
  | attempt : Method → Ev
  | exec : Method → Ev
  | success : Method → Ev
deriving DecidableEq

/-- Instance state: counters plus the chronological event trace. -/
structure St where
  stats : Stats := {}
  trace : List Ev := []
deriving DecidableEq

/-- Apply `f` to method `m`'s counter pair. -/
def mapStat (m : Method) (f : MStat → MStat) (s : Stats) : Stats :=
  match m with
  | .directFetch => { s with directFetch := f s.directFetch }
  | .lightpanda => { s with lightpanda := f s.lightpanda }
  | .puppeteer => { s with puppeteer := f s.puppeteer }
  | .pdf => { s with pdf := f s.pdf }

/-- Read method `m`'s counter pair. -/
def getStat (m : Method) (s : Stats) : MStat :=
  match m with
  | .directFetch => s.directFetch
  | .lightpanda => s.lightpanda
  | .puppeteer => s.puppeteer
  | .pdf => s.pdf

/-- `this.stats.<m>.attempts++` (with its trace event). -/
def recAttempt (m : Method) (st : St) : St :=
  { stats := mapStat m (fun ms => { ms with attempts := ms.attempts + 1 }) st.stats,
    trace := st.trace ++ [.attempt m] }

/-- Trace event marking the start of a stage's external action. -/
def recExec (m : Method) (st : St) : St :=
  { st with trace := st.trace ++ [.exec m] }

/-- `this.stats.<m>.successes++` (with its trace event). -/
def recSuccess (m : Method) (st : St) : St :=
  { stats := mapStat m (fun ms => { ms with successes := ms.successes + 1 }) st.stats,
    trace := st.trace ++ [.success m] }

/-- A step's result record (JavaScript object with optional fields;
absent boolean fields read as `false`). -/
structure JResult where
  success : Bool := false
  needsBrowser : Bool := false
  isPdf : Bool := false
  error : Option String := none
  content : Option String := none
  html : Option String := none
  size : Option Nat := none
  exitCode : Option Int := none
  contentType : Option String := none
  browserIndicators : Option (List String) := none
  pages : Option Nat := none
deriving DecidableEq

/-- Outcome of the direct-fetch HTTP request: a rejected/aborted fetch, a
non-2xx response, or a 2xx response with its `content-type` header and
body text. -/
inductive FetchOutcome where
  | thrown : String → FetchOutcome
  | notOk : Nat → String → FetchOutcome
  | ok : Option String → String → FetchOutcome
deriving DecidableEq

/-- The `pdfData` produced by the `pdf-parse` collaborator. -/
structure PdfInfo where
  title : Option String := none
  author : Option String := none
  subject : Option String := none
  keywords : Option String := none
  creator : Option String := none
  producer : Option String := none
  creationDate : Option String := none
  modificationDate : Option String := none
  numpages : Nat := 0
  text : String := ""
  metadata : Option Json := none

/-- Outcome of `pdfParse(buffer)`: a thrown parse error or parsed data. -/
inductive PdfParseOut where
  | perr : String → PdfParseOut
  | pok : PdfInfo → PdfParseOut

/-- Outcome of the PDF download: rejected fetch, non-2xx, or a 2xx
response with `content-type` header, buffer byte length, and the
subsequent parse outcome. -/
inductive PdfOutcome where
  | thrown : String → PdfOutcome
  | notOk : Nat → String → PdfOutcome
  | ok : Option String → Nat → PdfParseOut → PdfOutcome

/-- `statSync` result for the Lightpanda binary. -/
inductive BinaryStat where
  | missing
  | notFile
  | okFile
deriving DecidableEq

/-- Outcome of the spawned Lightpanda process: a spawn error, or process
close with exit code, accumulated stdout and stderr. -/
inductive SpawnOutcome where
  | err : String → SpawnOutcome
  | close : Int → String → String → SpawnOutcome
deriving DecidableEq

/-- Outcome of the Puppeteer session (launch through `page.evaluate`): a
thrown error anywhere inside the stage's try block, or the in-page
extraction payload. -/
inductive PupOutcome where
  | thrown : String → PupOutcome
  | ok : Json → PupOutcome

/-- An invocation's environment: each collaborator's response plus the
clock readings. -/
structure Env where
  now : String := ""
  elapsed : Nat := 0
  fetch : FetchOutcome := .thrown "network"
  pdf : PdfOutcome := .thrown "network"
  lightpandaPath : Option String := none
  binaryStat : BinaryStat := .okFile
  spawn : SpawnOutcome := .err "spawn"
  puppeteerAvailable : Bool := false
  pup : PupOutcome := .thrown "nav"

/-- Per-call configuration (`{...this.options, ...options}`); it only
parameterizes the external calls, which `Env` abstracts. -/
structure ScrapeConfig where
  timeout : Nat := 10000
  userAgent : String := "Mozilla/5.0 (compatible; BNCA/1.0; +https://github.com/your-org/bnca)"
  retries : Nat := 2
  verbose : Bool := false
deriving DecidableEq

/-- `BNCASmartScraper.tryDirectFetch(url, config)`. -/
def tryDirectFetch (env : Env) (url : String) (_config : ScrapeConfig) (st : St) :
    JResult × St :=
  let st := recAttempt .directFetch st
  let st := recExec .directFetch st
  match env.fetch with
  | .thrown msg => ({ error := some msg }, st)
  | .notOk status statusText =>
    ({ error := some ("HTTP " ++ toString status ++ ": " ++ statusText) }, st)
  | .ok ctHeader body =>
    let contentType := ctHeader.getD ""
    if strContains contentType "application/pdf" then
      ({ error := some "Content is PDF, should use PDF parser", isPdf := true }, st)
    else if startsWithL "%PDF".data (body.data.take 5) then
      ({ error := some "Content is PDF (detected by magic bytes), should use PDF parser",
         isPdf := true }, st)
    else
      let html := body
      let needsBrowser := detectBrowserRequirement html.data url.data
      if !needsBrowser then
        let content := extractContentFromHTML html.data env.now.data
        let st := recSuccess .directFetch st
        ({ success := true, needsBrowser := false, content := some ⟨content⟩,
           html := some html, size := some html.length,
           contentType := some (if contentType = "" then "text/html" else contentType) }, st)
      else
        ({ success := true, needsBrowser := true, html := some html,
           size := some html.length,
           browserIndicators := some (getBrowserIndicators html.data) }, st)

/-- The structured content record `tryPDFParse` serializes on success. -/
def pdfContentJson (info : PdfInfo) (url : String) : Json :=
  .obj
    [("title".data, .str (info.title.getD "Untitled PDF").data),
     ("author".data, .str (info.author.getD "").data),
     ("subject".data, .str (info.subject.getD "").data),
     ("keywords".data, .str (info.keywords.getD "").data),
     ("creator".data, .str (info.creator.getD "").data),
     ("producer".data, .str (info.producer.getD "").data),
     ("creationDate".data, .str (info.creationDate.getD "").data),
     ("modificationDate".data, .str (info.modificationDate.getD "").data),
     ("pages".data, .num (info.numpages : Int)),
     ("text".data, .str info.text.data),
     ("metadata".data, info.metadata.getD .null),
     ("url".data, .str url.data)]

/-- `BNCASmartScraper.tryPDFParse(url, config)`. -/
def tryPDFParse (env : Env) (url : String) (_config : ScrapeConfig) (st : St) :
    JResult × St :=
  let st := recAttempt .pdf st
  let st := recExec .pdf st
  match env.pdf with
  | .thrown msg => ({ error := some ("PDF parsing error: " ++ msg) }, st)
  | .notOk status statusText =>
    ({ error := some ("HTTP " ++ toString status ++ ": " ++ statusText) }, st)
  | .ok ctHeader bufLen parse =>
    let contentType := ctHeader.getD ""
    let isAcceptableType :=
      ["pdf", "octet-stream", "binary", "download"].any
        (fun t => strContains contentType t)
    if !isAcceptableType && !(strContains (strLower url) ".pdf") then
      ({ error := some ("Not a PDF document: " ++ contentType) }, st)
    else if bufLen > 20 * 1024 * 1024 then
      ({ error := some "PDF too large (max 20MB)" }, st)
    else
      match parse with
      | .perr msg => ({ error := some ("PDF parsing error: " ++ msg) }, st)
      | .pok info =>
        let st := recSuccess .pdf st
        ({ success := true,
           content := some ⟨stringifyPretty [] (pdfContentJson info url)⟩,
           size := some bufLen, contentType := some "application/pdf",
           pages := some info.numpages }, st)

/-- `BNCASmartScraper.tryLightpanda(url, config)` (`lightpandaPath` is the
instance option; `none` models a falsy path). -/
def tryLightpanda (env : Env) (_url : String) (_config : ScrapeConfig) (st : St) :
    JResult × St :=
  let st := recAttempt .lightpanda st
  match env.lightpandaPath with
  | none =>
    ({ error := some "Lightpanda binary not found. Please install Lightpanda or provide path." }, st)
  | some _ =>
    match env.binaryStat with
    | .missing => ({ error := some "Lightpanda binary not accessible" }, st)
    | .notFile => ({ error := some "Lightpanda binary is not a file" }, st)
    | .okFile =>
      let st := recExec .lightpanda st
      match env.spawn with
      | .err msg => ({ error := some ("Lightpanda process error: " ++ msg) }, st)
      | .close code output errorOutput =>
        if code == 0 && output.length > 0 then
          let content := extractContentFromHTML output.data env.now.data
          let st := recSuccess .lightpanda st
          ({ success := true, content := some ⟨content⟩, html := some output,
             size := some output.length, exitCode := some code }, st)
        else
          ({ error := some (if errorOutput = ""
               then "Lightpanda exited with code " ++ toString code
               else errorOutput),
             exitCode := some code }, st)

/-- `BNCASmartScraper.tryPuppeteer(url, config)`.  The `!puppeteer` check
throws outside the stage's try block, so its error escapes to `scrape`'s
catch; everything else is caught inside the stage. -/
def tryPuppeteer (env : Env) (_url : String) (_config : ScrapeConfig) (st : St) :
    Except String JResult × St :=
  let st := recAttempt .puppeteer st
  if !env.puppeteerAvailable then
    (.error "Puppeteer is not available", st)
  else
    let st := recExec .puppeteer st
    match env.pup with
    | .thrown msg => (.ok { error := some msg }, st)
    | .ok payload =>
      let st := recSuccess .puppeteer st
      (.ok { success := true,
             content := some ⟨stringifyPretty [] payload⟩,
             size := some (stringifyCompact payload).length }, st)

/-- The PDF-by-URL test at the top of `scrape`. -/
def isPdfUrl (url : String) : Bool :=
  strEndsWith (strLower url) ".pdf" || strContains (strLower url) ".pdf?" ||
    strContains (strLower url) "/pdf/"

/-- The final record `scrape` resolves with. -/
structure FinalResult where
  base : JResult
  method : String
  totalTime : Nat
  stats : Option StatsSnapshot
deriving DecidableEq

/-- Assemble `{...result, method, performance, stats}`. -/
def finishR (r : JResult) (method : String) (env : Env) (st : St) : FinalResult :=
  { base := r, method := method, totalTime := env.elapsed,
    stats := some (getStats st.stats) }

/-- Steps 1–3 of the cascade (direct fetch onward); the `lastError`
variable of the source is written but never read in the returned record,
so it is not modelled. -/
def scrapeCore (url : String) (config : ScrapeConfig) (env : Env) (st : St) :
    Except String FinalResult × St :=
  let (r, st) := tryDirectFetch env url config st
  if r.success && !r.needsBrowser then
    (.ok (finishR r "direct-fetch" env st), st)
  else if r.isPdf then
    let (r2, st) := tryPDFParse env url config st
    if r2.success then
      (.ok (finishR r2 "pdf" env st), st)
    else
      (.ok (finishR r2 "unknown" env st), st)
  else
    let (r2, st) := tryLightpanda env url config st
    if r2.success then
      (.ok (finishR r2 "lightpanda" env st), st)
    else
      match tryPuppeteer env url config st with
      | (.error e, st) => (.error e, st)
      | (.ok r3, st) =>
        if r3.success then
          (.ok (finishR r3 "puppeteer" env st), st)
        else
          (.ok (finishR r3 "failed" env st), st)

/-- The try block of `BNCASmartScraper.scrape(url, options)` (the per-call
`config = {...this.options, ...options}` is the `options` record here). -/
def scrapeTry (url : String) (options : ScrapeConfig) (env : Env) (st : St) :
    Except String FinalResult × St :=
  if isPdfUrl url then
    let (r1, st) := tryPDFParse env url options st
    if r1.success then
      (.ok (finishR r1 "pdf" env st), st)
    else
      scrapeCore url options env st
  else
    scrapeCore url options env st

/-- `BNCASmartScraper.scrape(url, options)`: the try block's value, or the
catch block's structured error record (which carries no `stats`). -/
def scrape (url : String) (options : ScrapeConfig) (env : Env) (st : St) :
    FinalResult × St :=
  match scrapeTry url options env st with
  | (.ok r, st) => (r, st)
  | (.error e, st) =>
    ({ base := { success := false, error := some e }, method := "error",
       totalTime := env.elapsed, stats := none }, st)

/-! ### Trace predicates -/

/-- `orderedB a b tr`: no occurrence of `b` strictly precedes the first
occurrence of `a`; with `b` occurring at most once this says every `b` is
preceded by an `a`. -/
def orderedB (a b : Ev) : List Ev → Bool
  | [] => true
  | e :: rest => if e == b then false else if e == a then true else orderedB a b rest

/-- `pairedExec m tr acc`: scanning left to right, every `exec m` event
consumes one earlier unconsumed `attempt m` event (`acc` counts the
attempts seen so far). -/
def pairedExec (m : Method) : List Ev → Nat → Bool
  | [], _ => true
  | e :: rest, acc =>
    if e == .attempt m then pairedExec m rest (acc + 1)
    else if e == .exec m then
      match acc with
      | 0 => false
      | a + 1 => pairedExec m rest a
    else pairedExec m rest acc

/-- The counter increment one event causes. -/
def applyEv (e : Ev) (s : Stats) : Stats :=
  match e with
  | .attempt m => mapStat m (fun ms => { ms with attempts := ms.attempts + 1 }) s
  | .exec _ => s
  | .success m => mapStat m (fun ms => { ms with successes := ms.successes + 1 }) s

/-- Replay a trace's counter increments. -/
def applyEvs (tl : List Ev) (s : Stats) : Stats :=
  tl.foldl (fun acc e => applyEv e acc) s

/-- The event trace one `scrape` invocation produces (started on an empty
trace, with arbitrary initial counters). -/
def runTrace (url : String) (opts : ScrapeConfig) (env : Env) (stats0 : Stats) :
    List Ev :=
  (scrape url opts env ⟨stats0, []⟩).2.trace

/-! ### Concrete inputs for the claims' witnesses and counterexamples -/

/-- Markup carrying a SPA marker and an anti-bot marker. -/
def c2html : String :=
  "<html><body><div id=\x22root\x22></div>please enable javascript</body></html>"

/-- The spec's example markup: an empty root div and almost no visible
text. -/
def c3htmlSpa : String := "<html><body><div id=\x22root\x22></div></body></html>"

/-- 210 characters of visible text. -/
def longText : String := ⟨List.replicate 210 'a'⟩

/-- The same root-div markup with ≥ 200 characters of visible text. -/
def c3htmlLong : String :=
  "<html><body><div id=\x22root\x22></div>" ++ longText ++ "</body></html>"

/-- Markup assigning a JSON object to the real-world hydration global
`window.__NEXT_DATA__`. -/
def c4html : String := "<script>window.__NEXT_DATA__ = \x7b\x22a\x22:1\x7d;</script>"

/-- The same assignment with the four trailing underscores the source's
regex actually requires. -/
def c4htmlQuad : String := "<script>window.__NEXT_DATA____ = \x7b\x22a\x22:1\x7d;</script>"

/-- An explicitly-`.pdf` URL. -/
def c1url : String := "https://files.test/doc.pdf"

/-- Environment where the PDF download 404s but the direct fetch returns
simple static markup. -/
def c1env : Env :=
  { now := "2026-01-01T00:00:00.000Z", elapsed := 5,
    pdf := .notOk 404 "Not Found",
    fetch := .ok (some "text/html") "<html><body>hi</body></html>" }

/-- Environment where Puppeteer is available and the in-page evaluation
returns a small payload. -/
def c5env : Env :=
  { puppeteerAvailable := true,
    pup := .ok (Json.obj [("title".data, .str "x".data)]) }

/-- Environment where the direct fetch 500s, the Lightpanda binary is
absent, and the Puppeteer navigation throws: the full cascade fails. -/
def c8env : Env :=
  { fetch := .notOk 500 "Server Error", puppeteerAvailable := true,
    pup := .thrown "nav timeout" }

/-- Environment where the direct fetch 500s, the Lightpanda binary is
absent, and Puppeteer is not installed: the cascade throws. -/
def c9env : Env :=
  { fetch := .notOk 500 "Server Error", puppeteerAvailable := false }

/-! ### Helper lemmas -/

/-- `startsWithL` agrees with prefix decomposition. -/
theorem startsWithL_iff (nd hay : List Char) :
    startsWithL nd hay = true ↔ ∃ t, hay = nd ++ t := by
  induction nd generalizing hay with
  | nil => simp [startsWithL]
  | cons c cs ih =>
    cases hay with
    | nil => simp [startsWithL]
    | cons d ds =>
      simp only [startsWithL, Bool.and_eq_true, beq_iff_eq, ih, List.cons_append,
        List.cons.injEq]
      constructor
      · rintro ⟨h1, t, h2⟩
        exact ⟨t, h1.symm, h2⟩
      · rintro ⟨t, h1, h2⟩
        exact ⟨h1.symm, t, h2⟩

/-- `listContains` (JavaScript `includes`) agrees with substring
decomposition. -/
theorem listContains_iff (hay nd : List Char) :
    listContains hay nd = true ↔ ∃ x y, hay = x ++ nd ++ y := by
  induction hay with
  | nil =>
    rw [listContains, startsWithL_iff]
    constructor
    · rintro ⟨t, ht⟩
      exact ⟨[], t, by simpa using ht⟩
    · rintro ⟨x, y, hxy⟩
      obtain ⟨hx, hy⟩ := List.append_eq_nil.mp hxy.symm
      obtain ⟨hx2, hnd⟩ := List.append_eq_nil.mp hx
      exact ⟨y, by simp [hnd, hy]⟩
  | cons a t ih =>
    rw [listContains]
    simp only [Bool.or_eq_true, startsWithL_iff, ih]
    constructor
    · rintro (⟨u, hu⟩ | ⟨x, y, hxy⟩)
      · exact ⟨[], u, by simpa using hu⟩
      · exact ⟨a :: x, y, by simp [hxy]⟩
    · rintro ⟨x, y, hxy⟩
      cases x with
      | nil => exact Or.inl ⟨y, by simpa using hxy⟩
      | cons b bs =>
        right
        simp only [List.cons_append, List.cons.injEq] at hxy
        exact ⟨bs, y, hxy.2⟩

/-! ### C2 -/

/-- C2: for every URL whose host matches an entry of the simple-site
allowlist (the entry occurs inside the host component) and for every
markup string, `detectBrowserRequirement` returns `false`, regardless of
any SPA, anti-bot, or content-volume signals in the markup. -/
theorem c2_allowlist_overrides (scheme host rest : String) (html : List Char)
    (site : List Char) (hsite : site ∈ simpleSites)
    (hhost : ∃ a b, host.data = a ++ site ++ b) :
    detectBrowserRequirement html (scheme ++ "://" ++ host ++ rest).data = false := by
  obtain ⟨a, b, hab⟩ := hhost
  have hcon : listContains (scheme ++ "://" ++ host ++ rest).data site = true := by
    rw [listContains_iff]
    refine ⟨scheme.data ++ "://".data ++ a, b ++ rest.data, ?_⟩
    simp [String.data_append, hab]
  have hsimple : isSimpleSite (scheme ++ "://" ++ host ++ rest).data = true := by
    unfold isSimpleSite
    rw [List.any_eq_true]
    exact ⟨site, hsite, hcon⟩
  unfold detectBrowserRequirement
  rw [hsimple]
  simp

/-- Witness for C2: `en.wikipedia.org` matches the allowlist entry
`wikipedia.org`, so markup full of SPA and anti-bot markers still
classifies as not needing rendering. -/
theorem c2_witness :
    ("wikipedia.org".data ∈ simpleSites) ∧
    ("en.wikipedia.org".data = "en.".data ++ "wikipedia.org".data ++ ([] : List Char)) ∧
    detectBrowserRequirement c2html.data
      ("https" ++ "://" ++ "en.wikipedia.org" ++ "/wiki/Main_Page").data = false :=
  ⟨by decide, by decide,
    c2_allowlist_overrides "https" "en.wikipedia.org" "/wiki/Main_Page" c2html.data
      "wikipedia.org".data (by decide) ⟨"en.".data, [], by decide⟩⟩

/-! ### C10 -/

/-- C10 (implicit): the allowlist test is substring containment over the
whole URL string, not a host comparison — any URL containing
`example.com` anywhere classifies as not needing rendering, bypassing all
SPA, anti-bot and interactive-platform checks. -/
theorem c10_substring_allowlist_bypass (url html : List Char)
    (h : listContains url "example.com".data = true) :
    detectBrowserRequirement html url = false := by
  have hsimple : isSimpleSite url = true := by
    unfold isSimpleSite
    rw [List.any_eq_true]
    exact ⟨"example.com".data, by simp [simpleSites], h⟩
  unfold detectBrowserRequirement
  rw [hsimple]
  simp

/-- Witness for C10: `https://notexample.com/a` contains `example.com`
inside the unrelated host `notexample.com`, and markup with both anti-bot
and SPA markers still classifies as not needing rendering. -/
theorem c10_witness :
    listContains "https://notexample.com/a".data "example.com".data = true ∧
    hasProtectionB c2html.data = true ∧
    hasSpaIndicatorsB c2html.data = true ∧
    detectBrowserRequirement c2html.data "https://notexample.com/a".data = false :=
  ⟨by decide, by decide, by decide,
    c10_substring_allowlist_bypass "https://notexample.com/a".data c2html.data (by decide)⟩

/-! ### C3 -/

/-- C3: off the allowlist, `detectBrowserRequirement` returns `true` iff
anti-bot markers are present, or the URL matches a known
interactive-platform domain, or the visible body text is shorter than 200
characters while a SPA marker is present; in particular low text volume
alone, without SPA markers, yields `false`. -/
theorem c3_rendering_rule (html url : List Char) (hws : isSimpleSite url = false) :
    (detectBrowserRequirement html url = true ↔
      (hasProtectionB html = true ∨ isKnownSpaB url = true ∨
        ((visibleText (bodyCapture html)).length < 200 ∧ hasSpaIndicatorsB html = true))) ∧
    (hasSpaIndicatorsB html = false → hasProtectionB html = false →
      isKnownSpaB url = false → detectBrowserRequirement html url = false) := by
  unfold detectBrowserRequirement
  simp only [hws, Bool.false_eq_true, if_false]
  constructor
  · simp only [Bool.or_eq_true, Bool.and_eq_true, decide_eq_true_eq]
    tauto
  · intro h1 h2 h3
    simp [h1, h2, h3]

set_option maxRecDepth 8000 in
/-- Witness for C3, at the spec's example inputs: an empty root div with
almost no visible text classifies as needing rendering, and the same
markup with ≥ 200 characters of visible text (and no anti-bot or domain
signals) classifies as not needing rendering. -/
theorem c3_witness :
    isSimpleSite "https://plainsite.test/".data = false ∧
    detectBrowserRequirement c3htmlSpa.data "https://plainsite.test/".data = true ∧
    detectBrowserRequirement c3htmlLong.data "https://plainsite.test/".data = false := by
  refine ⟨by decide, ?_, ?_⟩
  · exact (c3_rendering_rule c3htmlSpa.data "https://plainsite.test/".data
      (by decide)).1.mpr (by decide)
  · have h := (c3_rendering_rule c3htmlLong.data "https://plainsite.test/".data
      (by decide)).1
    cases hd : detectBrowserRequirement c3htmlLong.data "https://plainsite.test/".data with
    | false => rfl
    | true => exact absurd (h.mp hd) (by decide)

/-! ### C4 -/

/-- C4: the code's window-state regex demands four trailing underscores
(`window.__NAME____`), so for markup carrying a real inline assignment
`window.__NEXT_DATA__ = {...};` the extractor leaves `windowData` `null`,
while the four-underscore variant is located and parsed. -/
theorem c4_window_state_regex_never_matches :
    listContains c4html.data "window.__NEXT_DATA__".data = true ∧
    (∃ pre post, c4html.data
      = pre ++ "window.__NEXT_DATA__ = \x7b\x22a\x22:1\x7d;".data ++ post) ∧
    fieldIsNull (extractObj c4html.data "T".data) "windowData".data = true ∧
    ((jsonField (extractObj c4htmlQuad.data "T".data) "windowData".data).map stringifyCompact
      = some (stringifyCompact (Json.obj [("a".data, Json.num 1)]))) :=
  ⟨by decide, ⟨"<script>".data, "</script>".data, by decide⟩, by decide, by decide⟩

/-! ### C6 -/

/-- C6: extraction is deterministic modulo the timestamp — the record
extracted with timestamp `t1` equals the record extracted with timestamp
`t2` after setting its `extractedAt` field to `t1`, and likewise for the
serialized records; all other fields and bytes coincide. -/
theorem c6_extract_deterministic (html t1 t2 : List Char) :
    extractObj html t1
      = jsonSetField (extractObj html t2) "extractedAt".data (Json.str t1) ∧
    extractContentFromHTML html t1
      = stringifyPretty []
          (jsonSetField (extractObj html t2) "extractedAt".data (Json.str t1)) := by
  have hset : ∀ (v1 v2 v3 v4 v5 v6 vold w : Json),
      setFieldList "extractedAt".data w
        [("title".data, v1), ("metaDescription".data, v2), ("structuredData".data, v3),
         ("windowData".data, v4), ("metaTags".data, v5), ("content".data, v6),
         ("extractedAt".data, vold)]
      = [("title".data, v1), ("metaDescription".data, v2), ("structuredData".data, v3),
         ("windowData".data, v4), ("metaTags".data, v5), ("content".data, v6),
         ("extractedAt".data, w)] := by
    intro v1 v2 v3 v4 v5 v6 vold w
    rw [setFieldList, if_neg (by decide), setFieldList, if_neg (by decide),
        setFieldList, if_neg (by decide), setFieldList, if_neg (by decide),
        setFieldList, if_neg (by decide), setFieldList, if_neg (by decide),
        setFieldList, if_pos rfl, setFieldList]
  constructor
  · simp only [extractObj, jsonSetField]
    rw [hset]
  · simp only [extractContentFromHTML, extractObj, jsonSetField]
    rw [hset]

/-! ### C7 -/

/-- C7: `getStats` derives each success-rate string as
successes/attempts·100 formatted to one decimal place followed by `%`
(`rateToFixed1`), and as `"0%"` when attempts is zero; after 3 attempts
and 1 success the derived rate string is `"33.3%"`. -/
theorem c7_success_rate :
    (∀ a b : Nat, successRate ⟨a + 1, b⟩ = rateToFixed1 b (a + 1) ++ "%") ∧
    (∀ b : Nat, successRate ⟨0, b⟩ = "0%") ∧
    successRate ⟨3, 1⟩ = "33.3%" ∧
    (∀ s : Stats,
      getStats s = ⟨s, ⟨successRate s.directFetch, successRate s.lightpanda,
        successRate s.puppeteer, successRate s.pdf⟩⟩) := by
  refine ⟨fun a b => ?_, fun b => ?_, by decide, fun s => rfl⟩
  · simp [successRate]
  · simp [successRate]

/-! ### C5 -/

/-- Counterexample to C5: a successful full-engine result whose `size`
(13, the compact serialization's length) differs from the length of the
returned `content` string (18, the pretty-printed serialization). -/
theorem c5_counterexample :
    ((tryPuppeteer c5env "https://site.test/page" {} {}).1.toOption.map
      (fun r => (r.success, r.size, (r.content.getD "").length)))
      = some (true, some 13, 18) ∧
    ((tryPuppeteer c5env "https://site.test/page" {} {}).1.toOption.map
      (fun r => decide (r.size = some ((r.content.getD "").length))))
      = some false := by
  constructor <;> decide

/-- C5 as amended: for direct-fetch and light-engine successes `size` is
the length of `html`; for a full-engine success `size` is the length of
the compact (`JSON.stringify(content)`) serialization while the returned
`content` field is the pretty-printed serialization, whose length in
general differs; for a PDF success `size` is the PDF buffer's byte
length. -/
theorem c5_amended_size_fields :
    (∀ env url cfg st,
      (tryDirectFetch env url cfg st).1.success = true →
      (tryDirectFetch env url cfg st).1.size
        = some (((tryDirectFetch env url cfg st).1.html.getD "").length)) ∧
    (∀ env url cfg st,
      (tryLightpanda env url cfg st).1.success = true →
      (tryLightpanda env url cfg st).1.size
        = some (((tryLightpanda env url cfg st).1.html.getD "").length)) ∧
    (∀ env url cfg st r,
      (tryPuppeteer env url cfg st).1 = .ok r → r.success = true →
      ∃ payload, env.pup = .ok payload ∧
        r.size = some ((stringifyCompact payload).length) ∧
        r.content = some ⟨stringifyPretty [] payload⟩) ∧
    (∀ env url cfg st ct blen p,
      env.pdf = .ok ct blen p →
      (tryPDFParse env url cfg st).1.success = true →
      (tryPDFParse env url cfg st).1.size = some blen) := by
  refine ⟨?_, ?_, ?_, ?_⟩
  · intro env url cfg st
    obtain ⟨now, elapsed, fetch, pdfo, lpPath, binStat, spawnO, pupAvail, pupo⟩ := env
    cases fetch <;> simp only [tryDirectFetch] <;> repeat' split
    all_goals simp_all
  · intro env url cfg st
    obtain ⟨now, elapsed, fetch, pdfo, lpPath, binStat, spawnO, pupAvail, pupo⟩ := env
    cases lpPath <;> cases binStat <;> cases spawnO <;>
      simp only [tryLightpanda] <;> repeat' split
    all_goals simp_all
  · intro env url cfg st r
    obtain ⟨now, elapsed, fetch, pdfo, lpPath, binStat, spawnO, pupAvail, pupo⟩ := env
    cases pupAvail with
    | false => intro hok; simp [tryPuppeteer] at hok
    | true =>
      cases pupo with
      | thrown msg =>
        intro hok hsucc
        simp [tryPuppeteer] at hok
        rw [← hok] at hsucc
        simp at hsucc
      | ok payload =>
        intro hok hsucc
        simp [tryPuppeteer] at hok
        subst hok
        exact ⟨payload, rfl, rfl, rfl⟩
  · intro env url cfg st ct blen p hpdf
    obtain ⟨now, elapsed, fetch, pdfo, lpPath, binStat, spawnO, pupAvail, pupo⟩ := env
    cases hpdf
    cases p <;> simp only [tryPDFParse] <;> repeat' split
    all_goals simp_all

/-! ### C9 -/

/-- The only exception the cascade's try block can raise is the
`!puppeteer` throw, with its fixed message. -/
theorem tryPuppeteer_error_source (env : Env) (url : String) (cfg : ScrapeConfig)
    (st : St) (e : String) :
    (tryPuppeteer env url cfg st).1 = .error e →
    e = "Puppeteer is not available" ∧ env.puppeteerAvailable = false := by
  obtain ⟨now, elapsed, fetch, pdfo, lpPath, binStat, spawnO, pupAvail, pupo⟩ := env
  cases pupAvail with
  | false =>
    intro h
    simp [tryPuppeteer] at h
    exact ⟨h.symm, rfl⟩
  | true =>
    cases pupo <;> intro h <;> simp [tryPuppeteer] at h

/-- C9: `scrape` never rejects — an exception inside the try block is
converted into the structured catch record (success `false`, method
`"error"`, the message in `error`, no stats); the only such exception is
the full engine being unavailable; and method `"error"` arises only that
way. -/
theorem c9_scrape_never_throws (url : String) (opts : ScrapeConfig) (env : Env) (st : St) :
    (∀ e, (scrapeTry url opts env st).1 = .error e →
      (scrape url opts env st).1
        = { base := { success := false, error := some e }, method := "error",
            totalTime := env.elapsed, stats := none }) ∧
    (∀ e, (scrapeTry url opts env st).1 = .error e →
      e = "Puppeteer is not available" ∧ env.puppeteerAvailable = false) ∧
    ((scrape url opts env st).1.method = "error" →
      ∃ e, (scrapeTry url opts env st).1 = .error e) := by
  refine ⟨?_, ?_, ?_⟩
  · intro e h
    rcases hp : scrapeTry url opts env st with ⟨er, st2⟩
    have h1 : er = .error e := by rw [hp] at h; exact h
    subst h1
    simp [scrape, hp]
  · intro e h
    unfold scrapeTry scrapeCore at h
    repeat' split at h
    all_goals try simp_all
    all_goals
      rename_i heq
      subst h
      exact tryPuppeteer_error_source _ _ _ _ _ (by rw [heq])
  · intro h
    rcases hp : scrapeTry url opts env st with ⟨er, st2⟩
    cases er with
    | error e => exact ⟨e, by simp [hp]⟩
    | ok r =>
      exfalso
      have hr : (scrape url opts env st).1 = r := by simp [scrape, hp]
      rw [hr] at h
      unfold scrapeTry scrapeCore at hp
      repeat' split at hp
      all_goals try simp_all [finishR]
      all_goals
        obtain ⟨hp1, hp2⟩ := hp
        rw [← hp1] at h
        simp [finishR] at h

/-! ### Per-stage run characterizations (trace, counters, success) -/

/-- A step's result record does not depend on the instance state. -/
theorem tryPDFParse_result_const (env : Env) (url : String) (cfg : ScrapeConfig)
    (st st2 : St) : (tryPDFParse env url cfg st).1 = (tryPDFParse env url cfg st2).1 := by
  obtain ⟨now, elapsed, fetch, pdfo, lpPath, binStat, spawnO, pupAvail, pupo⟩ := env
  cases pdfo <;> simp only [tryPDFParse] <;> repeat' split
  all_goals rfl

/-- `tryDirectFetch`'s state evolution: it appends `attempt`, `exec` and,
exactly on a definitive (no-browser) success, `success` events, and its
counters advance by replaying those events. -/
theorem tryDirectFetch_run (env : Env) (url : String) (cfg : ScrapeConfig) (st : St) :
    ∃ tl,
      (tryDirectFetch env url cfg st).2.trace = st.trace ++ tl ∧
      (tryDirectFetch env url cfg st).2.stats = applyEvs tl st.stats ∧
      (tl = [Ev.attempt .directFetch, Ev.exec .directFetch] ∨
        tl = [Ev.attempt .directFetch, Ev.exec .directFetch, Ev.success .directFetch]) ∧
      ((Ev.success .directFetch ∈ tl) ↔
        ((tryDirectFetch env url cfg st).1.success = true ∧
          (tryDirectFetch env url cfg st).1.needsBrowser = false)) := by
  obtain ⟨now, elapsed, fetch, pdfo, lpPath, binStat, spawnO, pupAvail, pupo⟩ := env
  cases fetch <;> simp only [tryDirectFetch] <;> repeat' split
  all_goals first
    | (refine ⟨[Ev.attempt .directFetch, Ev.exec .directFetch, Ev.success .directFetch],
        ?_, ?_, Or.inr rfl, ?_⟩ <;>
       simp [recAttempt, recExec, recSuccess, applyEvs, applyEv] <;> done)
    | (refine ⟨[Ev.attempt .directFetch, Ev.exec .directFetch],
        ?_, ?_, Or.inl rfl, ?_⟩ <;>
       simp [recAttempt, recExec, applyEvs, applyEv] <;> done)

/-- `tryPDFParse`'s state evolution. -/
theorem tryPDFParse_run (env : Env) (url : String) (cfg : ScrapeConfig) (st : St) :
    ∃ tl,
      (tryPDFParse env url cfg st).2.trace = st.trace ++ tl ∧
      (tryPDFParse env url cfg st).2.stats = applyEvs tl st.stats ∧
      (tl = [Ev.attempt .pdf, Ev.exec .pdf] ∨
        tl = [Ev.attempt .pdf, Ev.exec .pdf, Ev.success .pdf]) ∧
      ((Ev.success .pdf ∈ tl) ↔ (tryPDFParse env url cfg st).1.success = true) := by
  obtain ⟨now, elapsed, fetch, pdfo, lpPath, binStat, spawnO, pupAvail, pupo⟩ := env
  cases pdfo <;> simp only [tryPDFParse] <;> repeat' split
  all_goals first
    | (refine ⟨[Ev.attempt .pdf, Ev.exec .pdf, Ev.success .pdf],
        ?_, ?_, Or.inr rfl, ?_⟩ <;>
       simp [recAttempt, recExec, recSuccess, applyEvs, applyEv] <;> done)
    | (refine ⟨[Ev.attempt .pdf, Ev.exec .pdf],
        ?_, ?_, Or.inl rfl, ?_⟩ <;>
       simp [recAttempt, recExec, applyEvs, applyEv] <;> done)

/-- `tryLightpanda`'s state evolution: the binary checks can fail before
any external action, so the tail may stop at `attempt`. -/
theorem tryLightpanda_run (env : Env) (url : String) (cfg : ScrapeConfig) (st : St) :
    ∃ tl,
      (tryLightpanda env url cfg st).2.trace = st.trace ++ tl ∧
      (tryLightpanda env url cfg st).2.stats = applyEvs tl st.stats ∧
      (tl = [Ev.attempt .lightpanda] ∨
        tl = [Ev.attempt .lightpanda, Ev.exec .lightpanda] ∨
        tl = [Ev.attempt .lightpanda, Ev.exec .lightpanda, Ev.success .lightpanda]) ∧
      ((Ev.success .lightpanda ∈ tl) ↔ (tryLightpanda env url cfg st).1.success = true) := by
  obtain ⟨now, elapsed, fetch, pdfo, lpPath, binStat, spawnO, pupAvail, pupo⟩ := env
  cases lpPath <;> cases binStat <;> cases spawnO <;>
    simp only [tryLightpanda] <;> repeat' split
  all_goals first
    | (refine ⟨[Ev.attempt .lightpanda, Ev.exec .lightpanda, Ev.success .lightpanda],
        ?_, ?_, Or.inr (Or.inr rfl), ?_⟩ <;>
       simp [recAttempt, recExec, recSuccess, applyEvs, applyEv] <;> done)
    | (refine ⟨[Ev.attempt .lightpanda, Ev.exec .lightpanda],
        ?_, ?_, Or.inr (Or.inl rfl), ?_⟩ <;>
       simp [recAttempt, recExec, applyEvs, applyEv] <;> done)
    | (refine ⟨[Ev.attempt .lightpanda],
        ?_, ?_, Or.inl rfl, ?_⟩ <;>
       simp [recAttempt, applyEvs, applyEv] <;> done)

/-- `tryPuppeteer`'s state evolution: the `!puppeteer` throw happens after
the attempt increment and before any external action. -/
theorem tryPuppeteer_run (env : Env) (url : String) (cfg : ScrapeConfig) (st : St) :
    ∃ tl,
      (tryPuppeteer env url cfg st).2.trace = st.trace ++ tl ∧
      (tryPuppeteer env url cfg st).2.stats = applyEvs tl st.stats ∧
      (tl = [Ev.attempt .puppeteer] ∨
        tl = [Ev.attempt .puppeteer, Ev.exec .puppeteer] ∨
        tl = [Ev.attempt .puppeteer, Ev.exec .puppeteer, Ev.success .puppeteer]) ∧
      ((Ev.success .puppeteer ∈ tl) ↔
        (∃ r, (tryPuppeteer env url cfg st).1 = .ok r ∧ r.success = true)) := by
  obtain ⟨now, elapsed, fetch, pdfo, lpPath, binStat, spawnO, pupAvail, pupo⟩ := env
  cases pupAvail <;> cases pupo <;> simp only [tryPuppeteer] <;> repeat' split
  all_goals first
    | (refine ⟨[Ev.attempt .puppeteer, Ev.exec .puppeteer, Ev.success .puppeteer],
        ?_, ?_, Or.inr (Or.inr rfl), ?_⟩ <;>
       simp [recAttempt, recExec, recSuccess, applyEvs, applyEv] <;> done)
    | (refine ⟨[Ev.attempt .puppeteer, Ev.exec .puppeteer],
        ?_, ?_, Or.inr (Or.inl rfl), ?_⟩ <;>
       simp [recAttempt, recExec, applyEvs, applyEv] <;> done)
    | (refine ⟨[Ev.attempt .puppeteer],
        ?_, ?_, Or.inl rfl, ?_⟩ <;>
       simp [recAttempt, applyEvs, applyEv] <;> done)

/-! ### C1 -/

/-- After a PDF-parse failure, steps 1–3 of the cascade run: the
direct-fetch attempt is recorded and no result can carry method `"pdf"`
(the sniffed-PDF retry fails for the same environment). -/
theorem scrapeCore_after_pdf_failure (url : String) (opts : ScrapeConfig)
    (env : Env) (st1 : St)
    (hfail : (tryPDFParse env url opts st1).1.success = false) :
    (∀ r, (scrapeCore url opts env st1).1 = .ok r → r.method ≠ "pdf") ∧
    Ev.attempt .directFetch ∈ (scrapeCore url opts env st1).2.trace := by
  rcases hdf : tryDirectFetch env url opts st1 with ⟨r2, st2⟩
  have hmem2 : Ev.attempt .directFetch ∈ st2.trace := by
    obtain ⟨tl, htr, _, hopts, _⟩ := tryDirectFetch_run env url opts st1
    rw [hdf] at htr
    have htr2 : st2.trace = st1.trace ++ tl := htr
    rcases hopts with h | h <;> subst h <;> simp [htr2]
  simp only [scrapeCore, hdf]
  split
  · exact ⟨fun r hr => by cases hr; simp [finishR], hmem2⟩
  · split
    · rcases hp2 : tryPDFParse env url opts st2 with ⟨r3, st3⟩
      have hr3 : r3.success = false := by
        have hc := tryPDFParse_result_const env url opts st2 st1
        rw [hp2] at hc
        have hc2 : r3 = (tryPDFParse env url opts st1).1 := hc
        rw [hc2]
        exact hfail
      have hmem3 : Ev.attempt .directFetch ∈ st3.trace := by
        obtain ⟨tl, htr, _, _, _⟩ := tryPDFParse_run env url opts st2
        rw [hp2] at htr
        have htr2 : st3.trace = st2.trace ++ tl := htr
        simp [htr2, hmem2]
      simp only [hr3]
      split
      · simp_all
      · exact ⟨fun r hr => by cases hr; simp [finishR], hmem3⟩
    · rcases hlp : tryLightpanda env url opts st2 with ⟨r4, st4⟩
      have hmem4 : Ev.attempt .directFetch ∈ st4.trace := by
        obtain ⟨tl, htr, _, _, _⟩ := tryLightpanda_run env url opts st2
        rw [hlp] at htr
        have htr2 : st4.trace = st2.trace ++ tl := htr
        simp [htr2, hmem2]
      simp only []
      split
      · exact ⟨fun r hr => by cases hr; simp [finishR], hmem4⟩
      · rcases hpp : tryPuppeteer env url opts st4 with ⟨er5, st5⟩
        have hmem5 : Ev.attempt .directFetch ∈ st5.trace := by
          obtain ⟨tl, htr, _, _, _⟩ := tryPuppeteer_run env url opts st4
          rw [hpp] at htr
          have htr2 : st5.trace = st4.trace ++ tl := htr
          simp [htr2, hmem4]
        cases er5 with
        | error e => simp [hpp, hmem5]
        | ok r5 =>
          simp only [hpp]
          split
          · exact ⟨fun r hr => by cases hr; simp [finishR], hmem5⟩
          · exact ⟨fun r hr => by cases hr; simp [finishR], hmem5⟩

/-- Counterexample to C1: for the explicitly-`.pdf` URL `c1url` whose PDF
parse fails with a 404, `scrape` does not terminate with method `"pdf"`
and success `false` — it continues the cascade and succeeds via
direct-fetch. -/
theorem c1_counterexample :
    isPdfUrl c1url = true ∧
    (tryPDFParse c1env c1url {} {}).1.success = false ∧
    (scrape c1url {} c1env {}).1.method = "direct-fetch" ∧
    (scrape c1url {} c1env {}).1.base.success = true :=
  ⟨by decide, by decide, by decide, by decide⟩

/-- C1 as amended: when the URL explicitly indicates a PDF and the PDF
parse step fails, the error is recorded and the cascade continues with
the direct-fetch stage (and onward); the scrape returns method `"pdf"`
only when PDF parsing succeeds. -/
theorem c1_amended_pdf_failure_falls_through (url : String) (opts : ScrapeConfig)
    (env : Env) (st : St)
    (hpdf : isPdfUrl url = true)
    (hfail : (tryPDFParse env url opts st).1.success = false) :
    (scrape url opts env st).1.method ≠ "pdf" ∧
    Ev.attempt .directFetch ∈ (scrape url opts env st).2.trace := by
  rcases h1 : tryPDFParse env url opts st with ⟨r1, st1⟩
  have hr1 : r1.success = false := by
    rw [h1] at hfail
    exact hfail
  have hTry : scrapeTry url opts env st = scrapeCore url opts env st1 := by
    unfold scrapeTry
    rw [hpdf]
    simp only [h1, hr1]
    simp
  have hfail1 : (tryPDFParse env url opts st1).1.success = false := by
    rw [tryPDFParse_result_const env url opts st1 st, h1]
    exact hr1
  obtain ⟨hmeth, hmem⟩ := scrapeCore_after_pdf_failure url opts env st1 hfail1
  rcases hc : scrapeCore url opts env st1 with ⟨er, st2⟩
  cases er with
  | ok r =>
    have : (scrape url opts env st) = (r, st2) := by
      unfold scrape
      rw [hTry, hc]
    rw [this]
    refine ⟨hmeth r (by rw [hc]), ?_⟩
    rw [hc] at hmem
    exact hmem
  | error e =>
    have : (scrape url opts env st)
        = ({ base := { success := false, error := some e }, method := "error",
             totalTime := env.elapsed, stats := none }, st2) := by
      unfold scrape
      rw [hTry, hc]
    rw [this]
    refine ⟨by simp, ?_⟩
    rw [hc] at hmem
    exact hmem

/-- Witness for C1's amended theorem at the counterexample environment:
the cascade records a direct-fetch attempt and ends with a method other
than `"pdf"`. -/
theorem c1_amended_witness :
    isPdfUrl c1url = true ∧
    (tryPDFParse c1env c1url {} {}).1.success = false ∧
    ((scrape c1url {} c1env {}).1.method ≠ "pdf" ∧
      Ev.attempt .directFetch ∈ (scrape c1url {} c1env {}).2.trace) :=
  ⟨by decide, by decide,
    c1_amended_pdf_failure_falls_through c1url {} c1env {} (by decide) (by decide)⟩

/-! ### C8 -/

/-- Replaying a concatenation of traces composes. -/
theorem applyEvs_append (a b : List Ev) (s : Stats) :
    applyEvs (a ++ b) s = applyEvs b (applyEvs a s) := by
  simp [applyEvs, List.foldl_append]

/-- One event bumps exactly its own attempt counter. -/
theorem getStat_applyEv_attempts (e : Ev) (m : Method) (s : Stats) :
    (getStat m (applyEv e s)).attempts
      = (getStat m s).attempts + (if e = Ev.attempt m then 1 else 0) := by
  cases e <;> rename_i m2 <;> cases m2 <;> cases m <;>
    simp [applyEv, mapStat, getStat]

/-- One event bumps exactly its own success counter. -/
theorem getStat_applyEv_successes (e : Ev) (m : Method) (s : Stats) :
    (getStat m (applyEv e s)).successes
      = (getStat m s).successes + (if e = Ev.success m then 1 else 0) := by
  cases e <;> rename_i m2 <;> cases m2 <;> cases m <;>
    simp [applyEv, mapStat, getStat]

/-- Replaying a trace adds exactly the trace's `attempt m` count to `m`'s
attempt counter (so counters never decrease). -/
theorem applyEvs_attempts (tl : List Ev) (s : Stats) (m : Method) :
    (getStat m (applyEvs tl s)).attempts
      = (getStat m s).attempts + tl.count (Ev.attempt m) := by
  induction tl generalizing s with
  | nil => simp [applyEvs]
  | cons e tl ih =>
    have h1 : applyEvs (e :: tl) s = applyEvs tl (applyEv e s) := by
      simp [applyEvs]
    rw [h1, ih, getStat_applyEv_attempts, List.count_cons]
    by_cases he : e = Ev.attempt m <;> simp [he, beq_iff_eq] <;> omega

/-- Replaying a trace adds exactly the trace's `success m` count to `m`'s
success counter. -/
theorem applyEvs_successes (tl : List Ev) (s : Stats) (m : Method) :
    (getStat m (applyEvs tl s)).successes
      = (getStat m s).successes + tl.count (Ev.success m) := by
  induction tl generalizing s with
  | nil => simp [applyEvs]
  | cons e tl ih =>
    have h1 : applyEvs (e :: tl) s = applyEvs tl (applyEv e s) := by
      simp [applyEvs]
    rw [h1, ih, getStat_applyEv_successes, List.count_cons]
    by_cases he : e = Ev.success m <;> simp [he, beq_iff_eq] <;> omega

/-- `tryDirectFetch`'s result record does not depend on the state. -/
theorem tryDirectFetch_result_const (env : Env) (url : String) (cfg : ScrapeConfig)
    (st st2 : St) :
    (tryDirectFetch env url cfg st).1 = (tryDirectFetch env url cfg st2).1 := by
  obtain ⟨now, elapsed, fetch, pdfo, lpPath, binStat, spawnO, pupAvail, pupo⟩ := env
  cases fetch <;> simp only [tryDirectFetch] <;> repeat' split
  all_goals rfl

/-- `tryLightpanda`'s result record does not depend on the state. -/
theorem tryLightpanda_result_const (env : Env) (url : String) (cfg : ScrapeConfig)
    (st st2 : St) :
    (tryLightpanda env url cfg st).1 = (tryLightpanda env url cfg st2).1 := by
  obtain ⟨now, elapsed, fetch, pdfo, lpPath, binStat, spawnO, pupAvail, pupo⟩ := env
  cases lpPath <;> cases binStat <;> cases spawnO <;>
    simp only [tryLightpanda] <;> repeat' split
  all_goals rfl

/-- `tryPuppeteer`'s result does not depend on the state. -/
theorem tryPuppeteer_result_const (env : Env) (url : String) (cfg : ScrapeConfig)
    (st st2 : St) :
    (tryPuppeteer env url cfg st).1 = (tryPuppeteer env url cfg st2).1 := by
  obtain ⟨now, elapsed, fetch, pdfo, lpPath, binStat, spawnO, pupAvail, pupo⟩ := env
  cases pupAvail <;> cases pupo <;> simp only [tryPuppeteer] <;> repeat' split
  all_goals rfl

/-- Counter discipline of steps 1–3 (direct fetch onward): the invocation
appends an event tail in which a Puppeteer attempt only follows a
Lightpanda attempt, every external execution is preceded by its own
attempt increment, counters advance exactly by replaying the tail, a
`"failed"` method presupposes all three attempts, and success events
coincide with the stages' definitive successes. -/
theorem scrapeCore_run (url : String) (opts : ScrapeConfig) (env : Env) (stA : St) :
    ∃ tl,
      (scrapeCore url opts env stA).2.trace = stA.trace ++ tl ∧
      (scrapeCore url opts env stA).2.stats = applyEvs tl stA.stats ∧
      orderedB (.attempt .lightpanda) (.attempt .puppeteer) tl = true ∧
      (∀ m, pairedExec m tl 0 = true) ∧
      (∀ r, (scrapeCore url opts env stA).1 = .ok r → r.method = "failed" →
        Ev.attempt .directFetch ∈ tl ∧ Ev.attempt .lightpanda ∈ tl ∧
        Ev.attempt .puppeteer ∈ tl) ∧
      ((Ev.success .directFetch ∈ tl) →
        (tryDirectFetch env url opts stA).1.success = true ∧
        (tryDirectFetch env url opts stA).1.needsBrowser = false) ∧
      ((Ev.success .lightpanda ∈ tl) → (tryLightpanda env url opts stA).1.success = true) ∧
      ((Ev.success .pdf ∈ tl) → (tryPDFParse env url opts stA).1.success = true) ∧
      ((Ev.success .puppeteer ∈ tl) →
        ∃ r2, (tryPuppeteer env url opts stA).1 = .ok r2 ∧ r2.success = true) := by
  rcases hdf : tryDirectFetch env url opts stA with ⟨r1, st1⟩
  obtain ⟨tl1, htr1, hst1, hopt1, htie1⟩ := tryDirectFetch_run env url opts stA
  rw [hdf] at htr1 hst1 htie1
  have htr1' : st1.trace = stA.trace ++ tl1 := htr1
  have hst1' : st1.stats = applyEvs tl1 stA.stats := hst1
  have htie1' : (Ev.success .directFetch ∈ tl1) ↔
      (r1.success = true ∧ r1.needsBrowser = false) := htie1
  have hdfA : (tryDirectFetch env url opts stA).1 = r1 := by rw [hdf]
  simp only [scrapeCore, hdf]
  split
  case isTrue hcond =>
    rcases hopt1 with h | h <;> subst h
    · exfalso; simp_all
    · refine ⟨[Ev.attempt .directFetch, Ev.exec .directFetch, Ev.success .directFetch],
        htr1', hst1', by decide, by intro m; cases m <;> decide, ?_, ?_, ?_, ?_, ?_⟩
      · intro r hr hm
        cases hr
        simp [finishR] at hm
      · intro _
        exact htie1'.mp (by simp)
      · intro h; simp at h
      · intro h; simp at h
      · intro h; simp at h
  case isFalse hcond =>
    have htl1 : tl1 = [Ev.attempt .directFetch, Ev.exec .directFetch] := by
      rcases hopt1 with h | h
      · exact h
      · exfalso; simp_all
    subst htl1
    split
    case isTrue hispdf =>
      rcases hp2 : tryPDFParse env url opts st1 with ⟨r2, st2⟩
      obtain ⟨tl2, htr2, hst2, hopt2, htie2⟩ := tryPDFParse_run env url opts st1
      rw [hp2] at htr2 hst2 htie2
      have htr2' : st2.trace = st1.trace ++ tl2 := htr2
      have hst2' : st2.stats = applyEvs tl2 st1.stats := hst2
      have htie2' : (Ev.success .pdf ∈ tl2) ↔ (r2.success = true) := htie2
      have hpdfA : (tryPDFParse env url opts stA).1 = r2 := by
        rw [tryPDFParse_result_const env url opts stA st1, hp2]
      try simp only [hp2]
      split
      case isTrue hsucc2 =>
        have htl2 : tl2 = [Ev.attempt .pdf, Ev.exec .pdf, Ev.success .pdf] := by
          rcases hopt2 with h | h
          · exfalso; rw [h] at htie2'; simp_all
          · exact h
        subst htl2
        refine ⟨[Ev.attempt .directFetch, Ev.exec .directFetch,
            Ev.attempt .pdf, Ev.exec .pdf, Ev.success .pdf],
          by rw [htr2', htr1']; simp, by simp [hst2', hst1', applyEvs],
          by decide, by intro m; cases m <;> decide, ?_, ?_, ?_, ?_, ?_⟩
        · intro r hr hm
          cases hr
          simp [finishR] at hm
        · intro h; simp at h
        · intro h; simp at h
        · intro _; rw [hpdfA]; exact hsucc2
        · intro h; simp at h
      case isFalse hsucc2 =>
        have htl2 : tl2 = [Ev.attempt .pdf, Ev.exec .pdf] := by
          rcases hopt2 with h | h
          · exact h
          · exfalso; rw [h] at htie2'; simp_all
        subst htl2
        refine ⟨[Ev.attempt .directFetch, Ev.exec .directFetch,
            Ev.attempt .pdf, Ev.exec .pdf],
          by rw [htr2', htr1']; simp, by simp [hst2', hst1', applyEvs],
          by decide, by intro m; cases m <;> decide, ?_, ?_, ?_, ?_, ?_⟩
        · intro r hr hm
          cases hr
          simp [finishR] at hm
        · intro h; simp at h
        · intro h; simp at h
        · intro h; simp at h
        · intro h; simp at h
    case isFalse hispdf =>
      rcases hlp : tryLightpanda env url opts st1 with ⟨r3, st3⟩
      obtain ⟨tl3, htr3, hst3, hopt3, htie3⟩ := tryLightpanda_run env url opts st1
      rw [hlp] at htr3 hst3 htie3
      have htr3' : st3.trace = st1.trace ++ tl3 := htr3
      have hst3' : st3.stats = applyEvs tl3 st1.stats := hst3
      have htie3' : (Ev.success .lightpanda ∈ tl3) ↔ (r3.success = true) := htie3
      have hlpA : (tryLightpanda env url opts stA).1 = r3 := by
        rw [tryLightpanda_result_const env url opts stA st1, hlp]
      try simp only [hlp]
      split
      case isTrue hsucc3 =>
        have htl3 : tl3 = [Ev.attempt .lightpanda, Ev.exec .lightpanda,
            Ev.success .lightpanda] := by
          rcases hopt3 with h | h | h
          · exfalso; rw [h] at htie3'; simp_all
          · exfalso; rw [h] at htie3'; simp_all
          · exact h
        subst htl3
        refine ⟨[Ev.attempt .directFetch, Ev.exec .directFetch,
            Ev.attempt .lightpanda, Ev.exec .lightpanda, Ev.success .lightpanda],
          by rw [htr3', htr1']; simp, by simp [hst3', hst1', applyEvs],
          by decide, by intro m; cases m <;> decide, ?_, ?_, ?_, ?_, ?_⟩
        · intro r hr hm
          cases hr
          simp [finishR] at hm
        · intro h; simp at h
        · intro _; rw [hlpA]; exact hsucc3
        · intro h; simp at h
        · intro h; simp at h
      case isFalse hsucc3 =>
        have htl3 : tl3 = [Ev.attempt .lightpanda] ∨
            tl3 = [Ev.attempt .lightpanda, Ev.exec .lightpanda] := by
          rcases hopt3 with h | h | h
          · exact Or.inl h
          · exact Or.inr h
          · exfalso; rw [h] at htie3'; simp_all
        rcases hpp : tryPuppeteer env url opts st3 with ⟨er4, st4⟩
        obtain ⟨tl4, htr4, hst4, hopt4, htie4⟩ := tryPuppeteer_run env url opts st3
        rw [hpp] at htr4 hst4 htie4
        have htr4' : st4.trace = st3.trace ++ tl4 := htr4
        have hst4' : st4.stats = applyEvs tl4 st3.stats := hst4
        have htie4' : (Ev.success .puppeteer ∈ tl4) ↔
            (∃ r2, er4 = .ok r2 ∧ r2.success = true) := htie4
        have hppA : (tryPuppeteer env url opts stA).1 = er4 := by
          rw [tryPuppeteer_result_const env url opts stA st3, hpp]
        try simp only [hpp]
        cases er4 with
        | error e =>
          refine ⟨[Ev.attempt .directFetch, Ev.exec .directFetch] ++ tl3 ++ tl4,
            ?_, ?_, ?_, ?_, ?_, ?_, ?_, ?_, ?_⟩
          · rw [htr4', htr3', htr1']; simp [List.append_assoc]
          · rw [hst4', hst3', hst1']; simp [applyEvs_append, applyEvs]
          · rcases htl3 with h3 | h3 <;> rcases hopt4 with h4 | h4 | h4 <;>
              subst h3 <;> subst h4 <;> decide
          · intro m
            rcases htl3 with h3 | h3 <;> rcases hopt4 with h4 | h4 | h4 <;>
              subst h3 <;> subst h4 <;> cases m <;> decide
          · intro r hr
            exact absurd hr (by simp)
          · intro h
            rcases htl3 with h3 | h3 <;> rcases hopt4 with h4 | h4 | h4 <;>
              subst h3 <;> subst h4 <;> simp at h
          · intro h
            exfalso
            rcases htl3 with h3 | h3 <;> subst h3 <;>
              rcases hopt4 with h4 | h4 | h4 <;> subst h4 <;> simp at h
          · intro h
            exfalso
            rcases htl3 with h3 | h3 <;> subst h3 <;>
              rcases hopt4 with h4 | h4 | h4 <;> subst h4 <;> simp at h
          · intro h
            exfalso
            have htl4 : tl4 = [Ev.attempt .puppeteer] ∨
                tl4 = [Ev.attempt .puppeteer, Ev.exec .puppeteer] := by
              rcases hopt4 with h4 | h4 | h4
              · exact Or.inl h4
              · exact Or.inr h4
              · exfalso; rw [h4] at htie4'; simp_all
            rcases htl3 with h3 | h3 <;> subst h3 <;>
              rcases htl4 with h4 | h4 <;> subst h4 <;> simp at h
        | ok r4 =>
          split
          · exfalso
            rename_i heq
            simp at heq
          rename_i r5 st5 heq
          injection heq with h1 h2
          injection h1 with h1
          subst h1
          subst h2
          split
          next hsucc4 =>
            have htl4 : tl4 = [Ev.attempt .puppeteer, Ev.exec .puppeteer,
                Ev.success .puppeteer] := by
              rcases hopt4 with h | h | h
              · exfalso; rw [h] at htie4'; simp_all
              · exfalso; rw [h] at htie4'; simp_all
              · exact h
            subst htl4
            refine ⟨[Ev.attempt .directFetch, Ev.exec .directFetch] ++ tl3 ++
                [Ev.attempt .puppeteer, Ev.exec .puppeteer, Ev.success .puppeteer],
              ?_, ?_, ?_, ?_, ?_, ?_, ?_, ?_, ?_⟩
            · rw [htr4', htr3', htr1']; simp [List.append_assoc]
            · rw [hst4', hst3', hst1']; simp [applyEvs_append, applyEvs]
            · rcases htl3 with h3 | h3 <;> subst h3 <;> decide
            · intro m
              rcases htl3 with h3 | h3 <;> subst h3 <;> cases m <;> decide
            · intro r hr hm
              cases hr
              simp [finishR] at hm
            · intro h
              exfalso
              rcases htl3 with h3 | h3 <;> subst h3 <;> simp at h
            · intro h
              exfalso
              rcases htl3 with h3 | h3 <;> subst h3 <;> simp at h
            · intro h
              exfalso
              rcases htl3 with h3 | h3 <;> subst h3 <;> simp at h
            · intro _
              exact ⟨r4, hppA, hsucc4⟩
          next hsucc4 =>
            have htl4 : tl4 = [Ev.attempt .puppeteer] ∨
                tl4 = [Ev.attempt .puppeteer, Ev.exec .puppeteer] := by
              rcases hopt4 with h | h | h
              · exact Or.inl h
              · exact Or.inr h
              · exfalso
                rw [h] at htie4'
                obtain ⟨r5, hr5, hs5⟩ := htie4'.mp (by simp)
                cases hr5
                simp_all
            refine ⟨[Ev.attempt .directFetch, Ev.exec .directFetch] ++ tl3 ++ tl4,
              ?_, ?_, ?_, ?_, ?_, ?_, ?_, ?_, ?_⟩
            · rw [htr4', htr3', htr1']; simp [List.append_assoc]
            · rw [hst4', hst3', hst1']; simp [applyEvs_append, applyEvs]
            · rcases htl3 with h3 | h3 <;> rcases htl4 with h4 | h4 <;>
                subst h3 <;> subst h4 <;> decide
            · intro m
              rcases htl3 with h3 | h3 <;> rcases htl4 with h4 | h4 <;>
                subst h3 <;> subst h4 <;> cases m <;> decide
            · intro r hr hm
              cases hr
              rcases htl3 with h3 | h3 <;> rcases htl4 with h4 | h4 <;>
                subst h3 <;> subst h4 <;> exact ⟨by simp, by simp, by simp⟩
            · intro h
              exfalso
              rcases htl3 with h3 | h3 <;> rcases htl4 with h4 | h4 <;>
                subst h3 <;> subst h4 <;> simp at h
            · intro h
              exfalso
              rcases htl3 with h3 | h3 <;> rcases htl4 with h4 | h4 <;>
                subst h3 <;> subst h4 <;> simp at h
            · intro h
              exfalso
              rcases htl3 with h3 | h3 <;> rcases htl4 with h4 | h4 <;>
                subst h3 <;> subst h4 <;> simp at h
            · intro h
              exfalso
              rcases htl3 with h3 | h3 <;> rcases htl4 with h4 | h4 <;>
                subst h3 <;> subst h4 <;> simp at h

/-- `scrapeTry`'s counter discipline: like `scrapeCore_run`, with the
PDF-URL pre-step prepended when it runs. -/
theorem scrapeTry_run (url : String) (opts : ScrapeConfig) (env : Env) (stA : St) :
    ∃ tl,
      (scrapeTry url opts env stA).2.trace = stA.trace ++ tl ∧
      (scrapeTry url opts env stA).2.stats = applyEvs tl stA.stats ∧
      orderedB (.attempt .lightpanda) (.attempt .puppeteer) tl = true ∧
      (∀ m, pairedExec m tl 0 = true) ∧
      (∀ r, (scrapeTry url opts env stA).1 = .ok r → r.method = "failed" →
        Ev.attempt .directFetch ∈ tl ∧ Ev.attempt .lightpanda ∈ tl ∧
        Ev.attempt .puppeteer ∈ tl) ∧
      ((Ev.success .directFetch ∈ tl) →
        (tryDirectFetch env url opts stA).1.success = true ∧
        (tryDirectFetch env url opts stA).1.needsBrowser = false) ∧
      ((Ev.success .lightpanda ∈ tl) → (tryLightpanda env url opts stA).1.success = true) ∧
      ((Ev.success .pdf ∈ tl) → (tryPDFParse env url opts stA).1.success = true) ∧
      ((Ev.success .puppeteer ∈ tl) →
        ∃ r2, (tryPuppeteer env url opts stA).1 = .ok r2 ∧ r2.success = true) := by
  simp only [scrapeTry]
  split
  case isTrue hpdfu =>
    rcases hp : tryPDFParse env url opts stA with ⟨r1, st1⟩
    obtain ⟨tl1, htr1, hst1, hopt1, htie1⟩ := tryPDFParse_run env url opts stA
    rw [hp] at htr1 hst1 htie1
    have htr1' : st1.trace = stA.trace ++ tl1 := htr1
    have hst1' : st1.stats = applyEvs tl1 stA.stats := hst1
    have htie1' : (Ev.success .pdf ∈ tl1) ↔ r1.success = true := htie1
    have hpdfA : (tryPDFParse env url opts stA).1 = r1 := by rw [hp]
    split
    case isTrue hsucc1 =>
      have htl1 : tl1 = [Ev.attempt .pdf, Ev.exec .pdf, Ev.success .pdf] := by
        rcases hopt1 with h | h
        · exfalso; rw [h] at htie1'; simp_all
        · exact h
      subst htl1
      refine ⟨[Ev.attempt .pdf, Ev.exec .pdf, Ev.success .pdf],
        htr1', hst1', by decide, by intro m; cases m <;> decide, ?_, ?_, ?_, ?_, ?_⟩
      · intro r hr hm
        cases hr
        simp [finishR] at hm
      · intro h; simp at h
      · intro h; simp at h
      · intro _; exact hsucc1
      · intro h; simp at h
    case isFalse hsucc1 =>
      have htl1 : tl1 = [Ev.attempt .pdf, Ev.exec .pdf] := by
        rcases hopt1 with h | h
        · exact h
        · exfalso; rw [h] at htie1'; simp_all
      subst htl1
      obtain ⟨tlc, htrc, hstc, hordc, hpairc, hfailc, hdfc, hlpc, hpdfc, hppc⟩ :=
        scrapeCore_run url opts env st1
      refine ⟨[Ev.attempt .pdf, Ev.exec .pdf] ++ tlc,
        ?_, ?_, ?_, ?_, ?_, ?_, ?_, ?_, ?_⟩
      · rw [htrc, htr1']; simp
      · rw [hstc, hst1']; simp [applyEvs_append, applyEvs]
      · exact hordc
      · intro m; cases m <;> exact hpairc _
      · intro r hr hm
        obtain ⟨h1, h2, h3⟩ := hfailc r hr hm
        exact ⟨by simp [h1], by simp [h2], by simp [h3]⟩
      · intro h
        have h2 : Ev.success .directFetch ∈ tlc := by simpa using h
        have h3 := hdfc h2
        rwa [tryDirectFetch_result_const env url opts stA st1]
      · intro h
        have h2 : Ev.success .lightpanda ∈ tlc := by simpa using h
        have h3 := hlpc h2
        rwa [tryLightpanda_result_const env url opts stA st1]
      · intro h
        have h2 : Ev.success .pdf ∈ tlc := by simpa using h
        have h3 := hpdfc h2
        have hpA2 : (tryPDFParse env url opts st1).1 = r1 := by
          rw [tryPDFParse_result_const env url opts st1 stA, hp]
        rw [hpA2] at h3
        exact h3
      · intro h
        have h2 : Ev.success .puppeteer ∈ tlc := by simpa using h
        have h3 := hppc h2
        rwa [tryPuppeteer_result_const env url opts stA st1]
  case isFalse hpdfu =>
    exact scrapeCore_run url opts env stA

/-! ### C8 -/

/-- C8: in every `scrape` invocation the Lightpanda attempt increment
precedes any Puppeteer attempt increment, a `"failed"` method is returned
only after the direct-fetch, Lightpanda and Puppeteer attempt counters
have each been incremented, every execution is preceded by that stage's
attempt increment, each counter advances by exactly its event count in the
trace (so no counter ever decreases), and a success counter is bumped only
on that stage's definitive success. -/
theorem c8_counter_discipline (url : String) (opts : ScrapeConfig) (env : Env)
    (stats0 : Stats) :
    (scrape url opts env ⟨stats0, []⟩).2.stats
        = applyEvs (runTrace url opts env stats0) stats0 ∧
    orderedB (.attempt .lightpanda) (.attempt .puppeteer)
        (runTrace url opts env stats0) = true ∧
    (∀ m, pairedExec m (runTrace url opts env stats0) 0 = true) ∧
    ((scrape url opts env ⟨stats0, []⟩).1.method = "failed" →
      Ev.attempt .directFetch ∈ runTrace url opts env stats0 ∧
      Ev.attempt .lightpanda ∈ runTrace url opts env stats0 ∧
      Ev.attempt .puppeteer ∈ runTrace url opts env stats0) ∧
    (∀ m,
      (getStat m (scrape url opts env ⟨stats0, []⟩).2.stats).attempts
        = (getStat m stats0).attempts
            + (runTrace url opts env stats0).count (Ev.attempt m) ∧
      (getStat m (scrape url opts env ⟨stats0, []⟩).2.stats).successes
        = (getStat m stats0).successes
            + (runTrace url opts env stats0).count (Ev.success m)) ∧
    ((Ev.success .directFetch ∈ runTrace url opts env stats0) →
      (tryDirectFetch env url opts ⟨stats0, []⟩).1.success = true ∧
      (tryDirectFetch env url opts ⟨stats0, []⟩).1.needsBrowser = false) ∧
    ((Ev.success .lightpanda ∈ runTrace url opts env stats0) →
      (tryLightpanda env url opts ⟨stats0, []⟩).1.success = true) ∧
    ((Ev.success .pdf ∈ runTrace url opts env stats0) →
      (tryPDFParse env url opts ⟨stats0, []⟩).1.success = true) ∧
    ((Ev.success .puppeteer ∈ runTrace url opts env stats0) →
      ∃ r2, (tryPuppeteer env url opts ⟨stats0, []⟩).1 = .ok r2 ∧ r2.success = true) := by
  obtain ⟨tl, htr, hst, hord, hpair, hfail, hdf, hlp, hpdf, hpp⟩ :=
    scrapeTry_run url opts env ⟨stats0, []⟩
  have h2nd : (scrape url opts env ⟨stats0, []⟩).2
      = (scrapeTry url opts env ⟨stats0, []⟩).2 := by
    rcases h : scrapeTry url opts env ⟨stats0, []⟩ with ⟨er, st⟩
    cases er <;> simp [scrape, h]
  have hT : runTrace url opts env stats0 = tl := by
    show (scrape url opts env ⟨stats0, []⟩).2.trace = tl
    rw [h2nd, htr]
    rfl
  have hSst : (scrape url opts env ⟨stats0, []⟩).2.stats = applyEvs tl stats0 := by
    rw [h2nd, hst]
  have hMeth : (scrape url opts env ⟨stats0, []⟩).1.method = "failed" →
      ∃ r, (scrapeTry url opts env ⟨stats0, []⟩).1 = .ok r ∧ r.method = "failed" := by
    rcases h : scrapeTry url opts env ⟨stats0, []⟩ with ⟨er, st⟩
    cases er with
    | error e =>
      intro hm
      simp [scrape, h] at hm
    | ok r =>
      intro hm
      exact ⟨r, rfl, by simpa [scrape, h] using hm⟩
  rw [hT, hSst]
  refine ⟨rfl, hord, hpair, ?_, ?_, hdf, hlp, hpdf, hpp⟩
  · intro hm
    obtain ⟨r, hr, hrm⟩ := hMeth hm
    exact hfail r hr hrm
  · intro m
    exact ⟨applyEvs_attempts tl stats0 m, applyEvs_successes tl stats0 m⟩

end Scraper
